import Mathlib

/-!
Verification development for the MiniShellAgent repository.

The Python modules `config.py`, `tools.py` and `agents.py` are embedded
shallowly below: pure functions become Lean functions, the interactive
effects (LLM backend, shell child process, confirmation dialogs, user
input) become oracle parameters, and the agent loop becomes a fueled
step function.  Machine strings are Lean `String`s; Python string
primitives (`strip`, `lower`, `in`, `split`, `startswith`) are embedded
as executable list functions.
-/

namespace MiniShellAgent

/-! ## Python string primitives -/

/-- The character set matched by Python's `str.strip()` / regex `\s`
(ASCII whitespace plus the extra unicode whitespace code points). -/
def pyWsChar (c : Char) : Bool :=
  c = ' ' || c = '\t' || c = '\n' || c = '\r' || c = '\x0b' || c = '\x0c' ||
  c = '\x1c' || c = '\x1d' || c = '\x1e' || c = '\x1f' ||
  c = '\u0085' || c = ' ' || c = ' ' ||
  (0x2000 ≤ c.toNat && c.toNat ≤ 0x200a) ||
  c = ' ' || c = ' ' || c = ' ' || c = ' ' || c = '　'

/-- `str.strip()` on a character list. -/
def pyStripL (l : List Char) : List Char :=
  ((l.dropWhile pyWsChar).reverse.dropWhile pyWsChar).reverse

/-- `str.strip()`. -/
def pyStrip (s : String) : String := String.mk (pyStripL s.data)

/-- `str.lower()` (ASCII case folding, as used by the commands here). -/
def pyLower (s : String) : String := String.mk (s.data.map Char.toLower)

/-- `a.startswith(b)` on character lists. -/
def listStarts : List Char → List Char → Bool
  | [], _ => true
  | _ :: _, [] => false
  | p :: ps, c :: cs => p = c && listStarts ps cs

/-- Python substring containment `needle in hay` on character lists. -/
def listHas (needle : List Char) : List Char → Bool
  | [] => listStarts needle []
  | c :: cs => listStarts needle (c :: cs) || listHas needle cs

/-- `needle in hay` for strings. -/
def strHas (hay needle : String) : Bool := listHas needle.data hay.data

/-- `a.startswith(b)` for strings. -/
def strStarts (s p : String) : Bool := listStarts p.data s.data

/-- `a.endswith(b)` for strings. -/
def strEnds (s p : String) : Bool := listStarts p.data.reverse s.data.reverse

/-- Python `str.split(sep)` with a non-empty separator `s0 :: ss`:
leftmost non-overlapping occurrences cut the string.  Fueled for
structural recursion; each step consumes at least one character, so any
fuel of at least the input length computes the split. -/
def listSplitNE (s0 : Char) (ss : List Char) : Nat → List Char → List (List Char)
  | _, [] => [[]]
  | 0, l => [l]
  | fuel + 1, c :: cs =>
    if listStarts (s0 :: ss) (c :: cs) then
      [] :: listSplitNE s0 ss fuel (cs.drop ss.length)
    else
      match listSplitNE s0 ss fuel cs with
      | [] => [[c]]
      | p :: ps => (c :: p) :: ps

/-- `str.split(sep)` for strings (the separators used in the source are
all non-empty; an empty separator yields a single piece here). -/
def strSplitOn (s sep : String) : List String :=
  match sep.data with
  | [] => [s]
  | s0 :: ss => (listSplitNE s0 ss s.data.length s.data).map String.mk

/-- Python `repr` of a bool, as produced by `str.format` on a bool field. -/
def pyBoolStr (b : Bool) : String := if b then "True" else "False"

/-- Python `s or dflt` for strings (`s` if non-empty). -/
def pyOrStr (s dflt : String) : String := if s = "" then dflt else s

/-! ## Regex search

The seven entries of `Config.DANGEROUS_PATTERNS` are fixed regexes; each
is embedded as a nondeterministic matcher (`List Char → List (List Char)`,
the set of possible remainders) and `re.search` as a scan over all
suffixes of the subject. -/

/-- A matcher consumes a prefix of the input; the result lists every
possible remainder. -/
def Matcher : Type := List Char → List (List Char)

/-- Match a literal. -/
def mLit (p : List Char) : Matcher := fun l =>
  if listStarts p l then [l.drop p.length] else []

/-- Match one character satisfying `pred`. -/
def mOne (pred : Char → Bool) : Matcher := fun l =>
  match l with
  | [] => []
  | c :: cs => if pred c then [cs] else []

/-- Match zero or more characters satisfying `pred` (`pred*`). -/
def mStar (pred : Char → Bool) : Matcher
  | [] => [[]]
  | c :: cs => (c :: cs) :: (if pred c then mStar pred cs else [])

/-- Match one or more characters satisfying `pred` (`pred+`). -/
def mPlus (pred : Char → Bool) : Matcher := fun l =>
  match l with
  | [] => []
  | c :: cs => if pred c then mStar pred cs else []

/-- Zero-or-one occurrence. -/
def mOpt (m : Matcher) : Matcher := fun l => l :: m l

/-- Alternation of literals, e.g. `(rm|mkfs|fdisk)`. -/
def mAltLits (ps : List String) : Matcher := fun l =>
  ps.flatMap (fun p => mLit p.data l)

/-- Sequential composition of a list of matchers. -/
def mCat (ms : List Matcher) : Matcher := fun l =>
  ms.foldl (fun rems m => (rems.map m).flatten) [l]

/-- `re.search`: does the matcher succeed at some position of the subject? -/
def reSearch (m : Matcher) : List Char → Bool
  | [] => !(m []).isEmpty
  | c :: cs => !(m (c :: cs)).isEmpty || reSearch m cs

/-- Regex `.` without `re.DOTALL`. -/
def dotChar (c : Char) : Bool := c ≠ '\n'

/-- Regex `\w` (ASCII portion). -/
def wordChar (c : Char) : Bool := c.isAlphanum || c = '_'

/-- Regex `[0-7]`. -/
def digit07 (c : Char) : Bool := '0' ≤ c && c ≤ '7'

/-! ## `config.py`: the Safety Oracle -/

namespace Config

/-- `Config.DANGEROUS_COMMANDS` (literal substring layer). -/
def DANGEROUS_COMMANDS : List String :=
  [ "rm -rf /", "rm -rf /bin", "rm -rf /usr", "rm -rf /etc", "rm -rf /var",
    "rm -rf /sys", "rm -rf /proc", "rm -rf /boot", "rm -rf /root",
    "mkfs", "fdisk", "parted", "dd if=", "dd of=",
    ":(){:|:&};:",
    "chmod -R 777 /", "chmod -R 000 /", "chown -R",
    "sudo rm", "sudo mkfs", "sudo fdisk", "sudo dd", "sudo chmod", "sudo chown",
    "systemctl stop", "systemctl disable", "service stop",
    "iptables -F", "iptables -X",
    "export PATH=", "unset PATH" ]

/-- Regex `rm\s+-rf\s+/[^/]`. -/
def pat_rm_rf_root : Matcher :=
  mCat [mLit "rm".data, mPlus pyWsChar, mLit "-rf".data, mPlus pyWsChar,
        mLit "/".data, mOne (fun c => c ≠ '/')]

/-- Regex `rm\s+-rf\s+/(bin|usr|etc|var|sys|proc|boot|root)`. -/
def pat_rm_rf_sys : Matcher :=
  mCat [mLit "rm".data, mPlus pyWsChar, mLit "-rf".data, mPlus pyWsChar,
        mLit "/".data,
        mAltLits ["bin", "usr", "etc", "var", "sys", "proc", "boot", "root"]]

/-- Regex `mkfs\.?\w*\s+/`. -/
def pat_mkfs : Matcher :=
  mCat [mLit "mkfs".data, mOpt (mLit ".".data), mStar wordChar,
        mPlus pyWsChar, mLit "/".data]

/-- Regex `dd\s+if=.*\s+of=/dev/`. -/
def pat_dd : Matcher :=
  mCat [mLit "dd".data, mPlus pyWsChar, mLit "if=".data, mStar dotChar,
        mPlus pyWsChar, mLit "of=/dev/".data]

/-- Regex `chmod\s+[0-7]{3}\s+/`. -/
def pat_chmod : Matcher :=
  mCat [mLit "chmod".data, mPlus pyWsChar, mOne digit07, mOne digit07,
        mOne digit07, mPlus pyWsChar, mLit "/".data]

/-- Regex `sudo\s+(rm|mkfs|fdisk|dd|chmod|chown)`. -/
def pat_sudo : Matcher :=
  mCat [mLit "sudo".data, mPlus pyWsChar,
        mAltLits ["rm", "mkfs", "fdisk", "dd", "chmod", "chown"]]

/-- Regex `:\(\)\{.*:\|.*&.*\};:`. -/
def pat_forkbomb : Matcher :=
  mCat [mLit ":()\x7b".data, mStar dotChar, mLit ":|".data, mStar dotChar,
        mLit "&".data, mStar dotChar, mLit "\x7d;:".data]

/-- `Config.DANGEROUS_PATTERNS`. -/
def DANGEROUS_PATTERNS : List Matcher :=
  [pat_rm_rf_root, pat_rm_rf_sys, pat_mkfs, pat_dd, pat_chmod, pat_sudo,
   pat_forkbomb]

/-- `Config.is_dangerous_command`, parameterized by the process-wide
`Config.SAFE_MODE` flag it reads. -/
def is_dangerous_command (SAFE_MODE : Bool) (command : String) : Bool :=
  if !SAFE_MODE then false
  else
    let command_lower := pyStrip (pyLower command)
    let command_original := pyStrip command
    -- Layer 1: literal substrings
    (DANGEROUS_COMMANDS.any fun d => strHas command_lower (pyLower d)) ||
    -- Layer 2: regexes
    (DANGEROUS_PATTERNS.any fun m => reSearch m command_lower.data) ||
    -- Layer 3: sudo plus a dangerous operation word
    (strHas command_lower "sudo" &&
      (["rm", "mkfs", "fdisk", "dd", "chmod", "chown", "format",
        "wipe"].any fun op => strHas command_lower op)) ||
    -- Layer 4: recursive rm touching a system path
    (strHas command_lower "rm" &&
      (strHas command_lower "-rf" || strHas command_lower "-r") &&
      (["/bin", "/usr", "/etc", "/var", "/sys", "/proc", "/boot", "/root",
        "/sbin", "/lib"].any fun p => strHas command_original p))

end Config

/-! ## `tools.py`: command validation -/

namespace TerminalTool

/-- The separator/keyword pairs of the injection heuristic. -/
def dangerous_chars_combinations : List (String × String) :=
  [(";", "rm"), ("&&", "rm"), ("||", "rm"), ("`", "rm"), ("$(", "rm")]

/-- Does some separator occurrence introduce a part whose stripped,
lowered text starts with the keyword?  (The loop body of
`validate_command`; the early `return` fires exactly when this holds and
safe mode is on.) -/
def injectionHit (command : String) : Bool :=
  dangerous_chars_combinations.any fun combo =>
    strHas command combo.1 && strHas (pyLower command) combo.2 &&
    ((strSplitOn command combo.1).drop 1).any fun part =>
      strStarts (pyLower (pyStrip part)) combo.2

/-- `TerminalTool.validate_command`.  `SAFE_MODE` is the global config
flag read by `Config.is_dangerous_command`; `safe_mode` the tool's own
field. -/
def validate_command (SAFE_MODE safe_mode : Bool) (command : String) :
    Bool × String :=
  if command = "" || pyStrip command = "" then (false, "命令不能为空")
  else if safe_mode && Config.is_dangerous_command SAFE_MODE command then
    (false, "危险命令已被阻止: " ++ command)
  else if command.length > 10000 then (false, "命令过长，可能存在安全风险")
  else if safe_mode && injectionHit command then
    (false, "检测到可能的命令注入: " ++ command)
  else (true, "OK")

end TerminalTool

/-! ## `json.loads`

The response parser calls `json.loads` on candidate substrings.  The
grammar accepted by Python's default decoder is embedded below: JSON
values plus `NaN`/`Infinity`/`-Infinity`, strings with the standard
escapes, strict rejection of control characters, last-wins duplicate
keys, and an error on trailing data. -/

/-- JSON values as produced by `json.loads`.  Numbers keep their sign,
integer digits, fraction digits and exponent. -/
inductive JVal where
  | null
  | bool (b : Bool)
  | num (neg : Bool) (ip fp : List Char) (exp : Option (Bool × List Char))
  | nan
  | inf (neg : Bool)
  | str (s : String)
  | arr (l : List JVal)
  | obj (kvs : List (String × JVal))

/-- Is the numeric literal zero (`0`, `0.00`, `-0e5`, …)? -/
def numIsZero (ip fp : List Char) : Bool :=
  (ip.all (· = '0')) && (fp.all (· = '0'))

/-- Python truthiness of a decoded JSON value. -/
def truthy : JVal → Bool
  | .null => false
  | .bool b => b
  | .num _ ip fp _ => !numIsZero ip fp
  | .nan => true
  | .inf _ => true
  | .str s => !(s = "")
  | .arr l => !l.isEmpty
  | .obj kvs => !kvs.isEmpty

/-- `d[k] = v` on a Python dict: replace in place or append. -/
def objInsert (kvs : List (String × JVal)) (k : String) (v : JVal) :
    List (String × JVal) :=
  if kvs.any (·.1 = k) then
    kvs.map (fun p => if p.1 = k then (k, v) else p)
  else kvs ++ [(k, v)]

/-- `d.get(k)` on the decoded object. -/
def objGet? (kvs : List (String × JVal)) (k : String) : Option JVal :=
  (kvs.find? (·.1 = k)).map (·.2)

/-- `k in d`. -/
def objHas (kvs : List (String × JVal)) (k : String) : Bool :=
  kvs.any (·.1 = k)

/-- `d.get(k, dflt)`. -/
def objGetD (kvs : List (String × JVal)) (k : String) (dflt : JVal) : JVal :=
  (objGet? kvs k).getD dflt

/-- JSON whitespace (`' \t\n\r'`, the set skipped by the decoder). -/
def jsonWsChar (c : Char) : Bool :=
  c = ' ' || c = '\t' || c = '\n' || c = '\r'

/-- Skip JSON whitespace. -/
def skipWs (l : List Char) : List Char := l.dropWhile jsonWsChar

/-- Hex digit value, by code point: digits, then the two letter
ranges (`a`–`f` at 97, `A`–`F` at 65). -/
def hexVal (c : Char) : Option Nat :=
  let n := c.toNat
  if 48 ≤ n && n ≤ 57 then some (n - 48)
  else if 97 ≤ n && n ≤ 102 then some (n - 87)
  else if 65 ≤ n && n ≤ 70 then some (n - 55)
  else none

/-- Four hex digits. -/
def hex4 : List Char → Option (Nat × List Char)
  | a :: b :: c :: d :: rest =>
    match hexVal a, hexVal b, hexVal c, hexVal d with
    | some x, some y, some z, some w =>
      some (((x * 16 + y) * 16 + z) * 16 + w, rest)
    | _, _, _, _ => none
  | _ => none

/-- `\uXXXX` decoding (`_decode_uXXXX` plus the surrogate-pair logic of
`py_scanstring`).  Input is the text after `\u`; the result is the
decoded character together with how many characters were consumed
(4, or 10 for a combined surrogate pair).  Invalid hex digits raise in
Python, hence `none`.  An unpaired surrogate, which Python would keep,
becomes U+FFFD since Lean characters are scalar values. -/
def decodeU (cs2 : List Char) : Option (Char × Nat) :=
  match cs2 with
  | a :: b :: c1 :: d :: cs3 =>
    match hexVal a, hexVal b, hexVal c1, hexVal d with
    | some x1, some x2, some x3, some x4 =>
      let h := ((x1 * 16 + x2) * 16 + x3) * 16 + x4
      if 0xd800 ≤ h && h ≤ 0xdbff then
        match cs3 with
        | '\\' :: 'u' :: a2 :: b2 :: c2 :: d2 :: _ =>
          match hexVal a2, hexVal b2, hexVal c2, hexVal d2 with
          | some y1, some y2, some y3, some y4 =>
            let h2 := ((y1 * 16 + y2) * 16 + y3) * 16 + y4
            if 0xdc00 ≤ h2 && h2 ≤ 0xdfff then
              some (Char.ofNat (0x10000 + (h - 0xd800) * 0x400 + (h2 - 0xdc00)),
                    10)
            else
              -- second unit is not a low surrogate: the first escape stays
              -- a lone surrogate and scanning resumes right after it
              some ('�', 4)
          | _, _, _, _ => none
        | '\\' :: 'u' :: _ => none
        | _ => some ('�', 4)
      else if 0xdc00 ≤ h && h ≤ 0xdfff then some ('�', 4)
      else some (Char.ofNat h, 4)
    | _, _, _, _ => none
  | _ => none

/-- String body scanner (`py_scanstring`), after the opening quote.
Strict mode: raw control characters are rejected.  Fueled for
structural recursion; each step consumes at least one character. -/
def scanJStrAux : Nat → List Char → Option (List Char × List Char)
  | 0, _ => none
  | _, [] => none
  | fuel + 1, c :: cs =>
    if c = '"' then some ([], cs)
    else if c = '\\' then
      match cs with
      | [] => none
      | e :: cs2 =>
        let simple : Option Char :=
          if e = '"' then some '"'
          else if e = '\\' then some '\\'
          else if e = '/' then some '/'
          else if e = 'b' then some '\x08'
          else if e = 'f' then some '\x0c'
          else if e = 'n' then some '\n'
          else if e = 'r' then some '\r'
          else if e = 't' then some '\t'
          else none
        match simple with
        | some ch =>
          match scanJStrAux fuel cs2 with
          | some (content, rest) => some (ch :: content, rest)
          | none => none
        | none =>
          if e = 'u' then
            match decodeU cs2 with
            | some (ch, n) =>
              match scanJStrAux fuel (cs2.drop n) with
              | some (content, rest) => some (ch :: content, rest)
              | none => none
            | none => none
          else none
    else if c.toNat < 0x20 then none
    else
      match scanJStrAux fuel cs with
      | some (content, rest) => some (c :: content, rest)
      | none => none

/-- String body scanner entry point: fuel is the input length plus one. -/
def scanJStr (l : List Char) : Option (List Char × List Char) :=
  scanJStrAux (l.length + 1) l

/-- Fraction part `(\.[0-9]+)?` of a number literal. -/
def scanFrac (rest : List Char) : List Char × List Char :=
  match rest with
  | '.' :: d :: ds =>
    if d.isDigit then
      ((d :: ds).takeWhile Char.isDigit, (d :: ds).dropWhile Char.isDigit)
    else ([], rest)
  | _ => ([], rest)

/-- Exponent part `([eE][+-]?[0-9]+)?` of a number literal. -/
def scanExp (rest : List Char) : Option (Bool × List Char) × List Char :=
  match rest with
  | e :: es =>
    if e = 'e' || e = 'E' then
      let (esign, es1) := match es with
        | '+' :: t => (false, t)
        | '-' :: t => (true, t)
        | _ => (false, es)
      match es1 with
      | d :: _ =>
        if d.isDigit then
          (some (esign, es1.takeWhile Char.isDigit),
           es1.dropWhile Char.isDigit)
        else (none, rest)
      | [] => (none, rest)
    else (none, rest)
  | [] => (none, rest)

/-- Number literal, per the decoder's `NUMBER_RE`:
`-? (0 | [1-9][0-9]*) (\.[0-9]+)? ([eE][+-]?[0-9]+)?`. -/
def scanNum (l : List Char) : Option (JVal × List Char) :=
  let (neg, l1) := match l with
    | '-' :: t => (true, t)
    | _ => (false, l)
  match l1 with
  | [] => none
  | c :: cs =>
    if c = '0' then
      let (fp, rest1) := scanFrac cs
      let (exp, rest2) := scanExp rest1
      some (.num neg ['0'] fp exp, rest2)
    else if c.isDigit then
      let ip := c :: cs.takeWhile Char.isDigit
      let (fp, rest1) := scanFrac (cs.dropWhile Char.isDigit)
      let (exp, rest2) := scanExp rest1
      some (.num neg ip fp exp, rest2)
    else none

mutual

/-- One JSON value (the decoder's `scan_once`). -/
def scanVal : Nat → List Char → Option (JVal × List Char)
  | 0, _ => none
  | fuel + 1, l =>
    match l with
    | [] => none
    | c :: cs =>
      if c = '"' then
        match scanJStr cs with
        | some (content, rest) => some (.str (String.mk content), rest)
        | none => none
      else if c = '{' then scanObjBody fuel [] (skipWs cs) true
      else if c = '[' then scanArrBody fuel [] (skipWs cs) true
      else if listStarts "null".data l then some (.null, l.drop 4)
      else if listStarts "true".data l then some (.bool true, l.drop 4)
      else if listStarts "false".data l then some (.bool false, l.drop 5)
      else if listStarts "NaN".data l then some (.nan, l.drop 3)
      else if listStarts "Infinity".data l then some (.inf false, l.drop 8)
      else if listStarts "-Infinity".data l then some (.inf true, l.drop 9)
      else scanNum l

/-- Object members after `{`.  `first` is true before any member is
read, so a closing brace is only accepted immediately or after a
member (no trailing comma). -/
def scanObjBody (fuel : Nat) (acc : List (String × JVal)) (l : List Char)
    (first : Bool) : Option (JVal × List Char) :=
  match fuel with
  | 0 => none
  | fuel + 1 =>
    match l with
    | '}' :: rest => if first then some (.obj acc, rest) else none
    | '"' :: cs =>
      match scanJStr cs with
      | none => none
      | some (key, rest1) =>
        match skipWs rest1 with
        | ':' :: rest2 =>
          match scanVal fuel (skipWs rest2) with
          | none => none
          | some (v, rest3) =>
            let acc1 := objInsert acc (String.mk key) v
            match skipWs rest3 with
            | '}' :: rest4 => some (.obj acc1, rest4)
            | ',' :: rest4 => scanObjBody fuel acc1 (skipWs rest4) false
            | _ => none
        | _ => none
    | _ => none

/-- Array items after `[`. -/
def scanArrBody (fuel : Nat) (acc : List JVal) (l : List Char)
    (first : Bool) : Option (JVal × List Char) :=
  match fuel with
  | 0 => none
  | fuel + 1 =>
    match l with
    | ']' :: rest => if first then some (.arr acc.reverse, rest) else none
    | _ =>
      match scanVal fuel l with
      | none => none
      | some (v, rest1) =>
        match skipWs rest1 with
        | ']' :: rest2 => some (.arr (v :: acc).reverse, rest2)
        | ',' :: rest2 => scanArrBody fuel (v :: acc) (skipWs rest2) false
        | _ => none

end

/-- `json.loads`: decode, then reject trailing data. -/
def jsonLoads (s : String) : Option JVal :=
  match scanVal (s.data.length + 2) (skipWs s.data) with
  | some (v, rest) => if (skipWs rest).isEmpty then some v else none
  | none => none

/-! ## `agents.py`: response parsing -/

namespace CommandAgent

/-- Lazy payload completion for the fence regex: starting after the
opening brace, stop at the first `}` that is followed by optional
whitespace and a closing fence (the `\x7b.*?\x7d\s*` tail of the
pattern, matched lazily under `re.DOTALL`).  `acc` holds the reversed
payload consumed so far. -/
def fenceEnd (acc : List Char) : List Char → Option (List Char)
  | [] => none
  | c :: cs =>
    if c = '}' && listStarts "```".data (cs.dropWhile pyWsChar) then
      some ((c :: acc).reverse)
    else fenceEnd (c :: acc) cs

/-- First match of `re.findall` for the fence pattern
(three backticks, `json`, `\s*`, a lazily matched brace-delimited
payload, `\s*`, three closing backticks): scan start positions left to
right; at a position where the opening literal matches, skip whitespace,
require an opening brace and complete the payload lazily. -/
def fenceSearch : List Char → Option (List Char)
  | [] => none
  | c :: cs =>
    match
      (if listStarts "```json".data (c :: cs) then
        match ((c :: cs).drop 7).dropWhile pyWsChar with
        | '{' :: rest => fenceEnd ['{'] rest
        | _ => none
      else none) with
    | some payload => some payload
    | none => fenceSearch cs

/-- The character loop of `_parse_response`: brace depth tracking with
string-literal and backslash-escape state, starting at the first brace.
Returns the index (from the start) of the closing brace that balances
the count to zero, if any. -/
def braceScan : List Char → Int → Bool → Bool → Nat → Option Nat
  | [], _, _, _, _ => none
  | c :: rest, brace_count, in_string, escape_next, idx =>
    if escape_next then braceScan rest brace_count in_string false (idx + 1)
    else if c = '\\' then braceScan rest brace_count in_string true (idx + 1)
    else if c = '"' then
      braceScan rest brace_count (!in_string) escape_next (idx + 1)
    else if !in_string && c = '{' then
      braceScan rest (brace_count + 1) in_string escape_next (idx + 1)
    else if !in_string && c = '}' then
      if brace_count - 1 = 0 then some idx
      else braceScan rest (brace_count - 1) in_string escape_next (idx + 1)
    else braceScan rest brace_count in_string escape_next (idx + 1)

/-- `response.find` of the first brace: the suffix starting there. -/
def dropToBrace : List Char → Option (List Char)
  | [] => none
  | c :: cs => if c = '{' then some (c :: cs) else dropToBrace cs

/-- The single balanced candidate substring the scan loop submits to
`json.loads` (the loop `break`s after the first balanced group). -/
def firstCandidate (r : List Char) : Option (List Char) :=
  match dropToBrace r with
  | none => none
  | some tl => (braceScan tl 0 false false 0).map fun idx => tl.take (idx + 1)

/-- `data.get("status") == "interaction"`. -/
def isInteractionStatus (kvs : List (String × JVal)) : Bool :=
  match objGet? kvs "status" with
  | some (.str s) => s = "interaction"
  | _ => false

/-- The dict built for an interaction reply. -/
def interactionDict (kvs : List (String × JVal)) (response : String) :
    List (String × JVal) :=
  [("interaction", .bool true),
   ("message", objGetD kvs "message" (.str response)),
   ("options", objGetD kvs "options" .null),
   ("allow_custom_input", objGetD kvs "allow_custom_input" (.bool false))]

/-- The bare-object path of `_parse_response`: only the first balanced
candidate is parsed; a parse failure `break`s out with no retry, and a
parsed object is returned only when it is an interaction or carries a
`command` or `status` key. -/
def scanPart (response : String) : Option (List (String × JVal)) :=
  match firstCandidate response.data with
  | none => none
  | some cand =>
    match jsonLoads (String.mk cand) with
    | some (.obj kvs) =>
      if isInteractionStatus kvs then some (interactionDict kvs response)
      else if objHas kvs "command" || objHas kvs "status" then some kvs
      else none
    | some _ => none  -- unreachable: the candidate starts with a brace
    | none => none

/-- `CommandAgent._parse_response`. -/
def _parse_response (response : String) : Option (List (String × JVal)) :=
  match fenceSearch response.data with
  | some payload =>
    match jsonLoads (String.mk payload) with
    | some (.obj kvs) =>
      if isInteractionStatus kvs then some (interactionDict kvs response)
      else some kvs
    | some _ => none  -- unreachable: the payload starts with a brace
    | none => scanPart response
  | none => scanPart response

/-- `CommandAgent._is_final_summary`. -/
def _is_final_summary (response : String) : Bool :=
  ["完成", "完结", "finished", "done", "总结", "summary"].any fun kw =>
    strHas (pyLower response) kw

end CommandAgent

/-! ## `tools.py`: execution

The operating-system boundary is a backend oracle: given the call
index, the child environment and the command text, it returns the
child's final environment, its captured stdout/stderr and its exit
code.  Everything around that boundary — the safety gate, the
confirmation dialogs (another oracle), the persistent state-file
round-trip and the fallback `cd`-handling — is embedded from the
source.  Environments are association lists read first-match, so
prepending a binding overrides it. -/

/-- Process environments (`os.environ`, the state-file contents). -/
abbrev Env : Type := List (String × String)

/-- Environment lookup (first binding wins). -/
def lookupEnv (env : Env) (k : String) : Option String :=
  (env.find? (·.1 = k)).map (·.2)

/-- What the child process produced. -/
structure ShellRes where
  env : Env
  out : String
  err : String
  code : Int

/-- The external shell: call index, child environment, command. -/
def ShellFn : Type := Nat → Env → String → ShellRes

/-- One `ui.confirm` dialog: its prompt and its default answer. -/
structure ConfirmReq where
  prompt : String
  dflt : Bool

namespace TerminalTool

/-- The fields of a `TerminalTool` relevant to execution, plus the
global `Config.SAFE_MODE` it consults. -/
structure Cfg where
  SAFE_MODE : Bool
  safe_mode : Bool
  use_persistent_shell : Bool

/-- `TerminalTool.__init__`: the tool's `safe_mode` field is
`safe_mode or Config.SAFE_MODE`. -/
def init (SAFE_MODE : Bool) (safe_mode : Bool) (use_persistent_shell : Bool) :
    Cfg :=
  { SAFE_MODE := SAFE_MODE,
    safe_mode := safe_mode || SAFE_MODE,
    use_persistent_shell := use_persistent_shell }

/-- Mutable state threaded through `execute` calls: the Python process
environment, the persistent shell's state-file environment, and the
observable effect logs (commands that reached an execution path, and
confirmation dialogs shown). -/
structure St where
  parentEnv : Env
  shellEnv : Env
  shellCalls : List String
  confirms : List ConfirmReq

/-- `high_risk_keywords` from `TerminalTool.execute`. -/
def high_risk_keywords : List String :=
  ["rm -rf", "mkfs", "fdisk", "dd if=", "dd of=", "format", "wipe"]

/-- `PersistentShell.execute` (`_execute_unix`): the wrapper script
sources the state file over the inherited environment, runs the
command, then dumps the child environment back into the state file;
the parent reads the state file back into `os.environ`.  The pty
capture is returned unmodified and stderr is merged (always `""`). -/
def persistentExec (backend : ShellFn) (st : St) (command : String) :
    (Bool × String × String) × St :=
  let childEnv : Env := st.shellEnv ++ st.parentEnv
  let res := backend st.shellCalls.length childEnv command
  ((res.code == 0, res.out, ""),
   { st with shellEnv := res.env,
             parentEnv := res.env ++ st.parentEnv,
             shellCalls := st.shellCalls ++ [command] })

/-- The fallback (non-persistent) execution path of
`TerminalTool.execute`: one fresh child per call inheriting
`os.environ`; directory-changing commands get `&& pwd` appended and
their output munged; nothing is written back to the parent environment.
(The `os.chdir` bookkeeping is not modelled: no claim observes the
working directory.) -/
def fallbackExec (backend : ShellFn) (st : St) (command : String) :
    (Bool × String × String) × St :=
  let command_lower := pyLower (pyStrip command)
  let is_directory_change_cmd :=
    strStarts command_lower "cd " || strStarts command_lower "pushd " ||
    command_lower = "popd" || strStarts command_lower "popd "
  let result :=
    if is_directory_change_cmd then
      let shell_cmd := command ++ " && pwd"
      let res := backend st.shellCalls.length st.parentEnv shell_cmd
      let success := res.code == 0
      let stdout := pyStrip res.out
      let stderr := pyStrip res.err
      if success then
        let lines := strSplitOn stdout "\n"
        let is_pure_dir_cmd :=
          !(strHas command_lower "&&" || strHas command_lower ";" ||
            strHas command_lower "|")
        let stdout' :=
          if is_pure_dir_cmd then
            if strStarts command_lower "cd " then ""
            else if lines.length > 1 then
              String.intercalate "\n" lines.dropLast
            else ""
          else
            if lines.length > 1 then String.intercalate "\n" lines.dropLast
            else stdout
        (success, stdout', stderr)
      else (success, stdout, stderr)
    else
      let res := backend st.shellCalls.length st.parentEnv command
      (res.code == 0, pyStrip res.out, pyStrip res.err)
  (result, { st with shellCalls := st.shellCalls ++ [command] })

/-- The execution step reached after every check has passed. -/
def runShell (tool : Cfg) (backend : ShellFn) (st : St) (command : String) :
    (Bool × String × String) × St :=
  if tool.use_persistent_shell then persistentExec backend st command
  else fallbackExec backend st command

/-- One `ui.confirm` dialog: log the request, answer it through the
oracle (indexed by how many dialogs came before). -/
def confirmStage (confirmAns : Nat → Bool) (st : St) (prompt : String)
    (dflt : Bool) : Bool × St :=
  (confirmAns st.confirms.length,
   { st with confirms := st.confirms ++ [⟨prompt, dflt⟩] })

/-- Third confirmation layer of `execute`: regular commands are
confirmed only when `require_confirm` is set and no earlier layer
already confirmed, default yes; then the command runs. -/
def normalStage (tool : Cfg) (backend : ShellFn) (confirmAns : Nat → Bool)
    (command : String) (require_confirm is_sudo_command is_high_risk : Bool)
    (st : St) : (Bool × String × String) × St :=
  if require_confirm && !is_sudo_command && !is_high_risk then
    if !(confirmStage confirmAns st "是否执行此命令？" true).1 then
      ((false, "", "User cancelled"),
       (confirmStage confirmAns st "是否执行此命令？" true).2)
    else
      runShell tool backend
        (confirmStage confirmAns st "是否执行此命令？" true).2 command
  else runShell tool backend st command

/-- Second confirmation layer of `execute`: high-risk commands require
confirmation under safe mode, default no. -/
def highRiskStage (tool : Cfg) (backend : ShellFn) (confirmAns : Nat → Bool)
    (command : String) (require_confirm is_sudo_command is_high_risk : Bool)
    (st : St) : (Bool × String × String) × St :=
  if is_high_risk && tool.safe_mode then
    if !(confirmStage confirmAns st "确认执行此高风险命令？" false).1 then
      ((false, "", "User cancelled high-risk command"),
       (confirmStage confirmAns st "确认执行此高风险命令？" false).2)
    else
      normalStage tool backend confirmAns command require_confirm
        is_sudo_command is_high_risk
        (confirmStage confirmAns st "确认执行此高风险命令？" false).2
  else
    normalStage tool backend confirmAns command require_confirm
      is_sudo_command is_high_risk st

/-- First confirmation layer of `execute`: sudo commands always require
confirmation, in every mode, default no. -/
def sudoStage (tool : Cfg) (backend : ShellFn) (confirmAns : Nat → Bool)
    (command : String) (require_confirm is_sudo_command is_high_risk : Bool)
    (st : St) : (Bool × String × String) × St :=
  if is_sudo_command then
    if !(confirmStage confirmAns st "确认执行此sudo命令？" false).1 then
      ((false, "", "User cancelled sudo command"),
       (confirmStage confirmAns st "确认执行此sudo命令？" false).2)
    else
      highRiskStage tool backend confirmAns command require_confirm
        is_sudo_command is_high_risk
        (confirmStage confirmAns st "确认执行此sudo命令？" false).2
  else
    highRiskStage tool backend confirmAns command require_confirm
      is_sudo_command is_high_risk st

/-- `TerminalTool.execute`: the safety gate, the validation gate, the
three confirmation layers (in source order), then the execution path.
`confirmAns n` answers the `n`-th dialog of the run. -/
def execute (tool : Cfg) (backend : ShellFn) (confirmAns : Nat → Bool)
    (st : St) (command : String) (require_confirm : Bool) :
    (Bool × String × String) × St :=
  -- final safety check
  if tool.safe_mode && Config.is_dangerous_command tool.SAFE_MODE command then
    ((false, "", "Dangerous command blocked"), st)
  else if !(validate_command tool.SAFE_MODE tool.safe_mode command).1 then
    ((false, "", (validate_command tool.SAFE_MODE tool.safe_mode command).2),
     st)
  else
    sudoStage tool backend confirmAns command require_confirm
      (strStarts (pyStrip (pyLower command)) "sudo ")
      (high_risk_keywords.any fun kw =>
        strHas (pyStrip (pyLower command)) kw)
      st

end TerminalTool

/-! ## A concrete shell backend -/

/-- Expansion of one word of an `echo` argument: `$NAME` is replaced by
the variable's value (empty when unset). -/
def expandWord (env : Env) (w : String) : String :=
  match w.data with
  | '$' :: name => (lookupEnv env (String.mk name)).getD ""
  | _ => w

/-- Modelled from the spec: the external Unix shell child spawned by the
Persistent Shell and by the subprocess fallback is not part of the
repository.  §4.3 requires that "each command observes the cwd and
exported environment left by the previous command"; this minimal
deterministic shell interprets `export KEY=VALUE` (sets the variable,
no output) and `echo WORDS` (expands `$NAME` words against the
environment, emits the line), and treats anything else as a silent
no-op with exit code 0. -/
def miniShell : ShellFn := fun _ env cmd =>
  if strStarts cmd "export " then
    let rest := cmd.data.drop 7
    let key := rest.takeWhile (· ≠ '=')
    match rest.dropWhile (· ≠ '=') with
    | '=' :: value =>
      { env := (String.mk key, String.mk value) :: env, out := "",
        err := "", code := 0 }
    | _ => { env := env, out := "", err := "", code := 0 }
  else if strStarts cmd "echo " then
    let words := strSplitOn (String.mk (cmd.data.drop 5)) " "
    { env := env,
      out := String.intercalate " " (words.map (expandWord env)) ++ "\n",
      err := "", code := 0 }
  else { env := env, out := "", err := "", code := 0 }

/-! ## `agents.py`: the Agent Loop -/

namespace CommandAgent

/-- A conversation message. -/
structure Msg where
  role : String
  content : String
deriving DecidableEq

/-- A Step Record (`step_info`). -/
structure StepRec where
  step : Nat
  command : String
  success : Bool
  stdout : String
  stderr : String
deriving DecidableEq

/-- The dict returned by `CommandAgent.run`.  `steps`/`summary`/`error`
are `none` when the corresponding key is absent. -/
structure RunResult where
  success : Bool
  steps : Option (List StepRec)
  summary : Option JVal
  error : Option String

/-- One `llm.generate` outcome: an exception, or a reply
(`none` models Python `None`). -/
inductive LLMOut where
  | exn (msg : String)
  | ok (resp : Option String)

/-- The oracles the loop interacts with: the LLM (indexed by iteration),
the shell child (indexed by executed-command count), the confirmation
dialogs (indexed by dialog count) and interaction input (indexed by
prompt count). -/
structure Orc where
  llm : Nat → LLMOut
  shell : Nat → ShellRes
  confirm : Nat → Bool
  userInput : Nat → String

/-- `max_steps or Config.MAX_STEPS` (`0`/`None` fall back). -/
def pyOrNat (v : Option Nat) (dflt : Nat) : Nat :=
  match v with
  | some n => if n = 0 then dflt else n
  | none => dflt

/-- The fields of a `CommandAgent` fixed at construction. -/
structure ACfg where
  SAFE_MODE : Bool
  max_steps : Nat
  require_confirm : Bool
  auto_mode : Bool
  max_idle_steps : Nat
  system_prompt : String

/-- `CommandAgent.__init__` (argument resolution against the config
defaults; the system prompt text is an input, `prompts.py` being UI). -/
def init (SAFE_MODE : Bool) (MAX_STEPS MAX_IDLE_STEPS : Nat)
    (max_steps : Option Nat) (require_confirm auto_mode : Bool)
    (max_idle_steps : Option Nat) (system_prompt : String) : ACfg :=
  { SAFE_MODE := SAFE_MODE,
    max_steps := pyOrNat max_steps MAX_STEPS,
    require_confirm := require_confirm,
    auto_mode := auto_mode,
    max_idle_steps := pyOrNat max_idle_steps MAX_IDLE_STEPS,
    system_prompt := system_prompt }

/-- The tool constructed by `CommandAgent.__init__`: `TerminalTool()`,
i.e. `safe_mode=True`, `use_persistent_shell=False`. -/
def agentTool (cfg : ACfg) : TerminalTool.Cfg :=
  TerminalTool.init cfg.SAFE_MODE true false

/-- Loop state. -/
structure RunSt where
  history : List Msg
  steps : List StepRec
  idle_steps : Nat
  current_step : Nat
  tool : TerminalTool.St
  uiIdx : Nat

/-- Fresh agent state: history seeded with the system message. -/
def initSt (cfg : ACfg) (parentEnv : Env) : RunSt :=
  { history := [⟨"system", cfg.system_prompt⟩],
    steps := [], idle_steps := 0, current_step := 0,
    tool := { parentEnv := parentEnv, shellEnv := parentEnv,
              shellCalls := [], confirms := [] },
    uiIdx := 0 }

/-- Outcome of one loop iteration: terminate with a result, or continue. -/
inductive IterOut where
  | done (r : RunResult) (st : RunSt)
  | next (st : RunSt)

/-- The state carried by either outcome. -/
def IterOut.state : IterOut → RunSt
  | .done _ st => st
  | .next st => st

/-- The result, when the iteration terminated the run. -/
def IterOut.result? : IterOut → Option RunResult
  | .done r _ => some r
  | .next _ => none

/-- `AGENT_USER_TEMPLATE.format(task=task)`. -/
def AGENT_USER_TEMPLATE (task : String) : String :=
  "任务: " ++ task ++ "\n\n请理解任务并开始执行。"

/-- `AGENT_OBSERVATION_TEMPLATE.format(...)` (bools format as
`True`/`False`). -/
def AGENT_OBSERVATION_TEMPLATE (command : String) (success : Bool)
    (output error : String) : String :=
  "上一个命令的执行结果：\n\n命令: " ++ command ++ "\n成功: " ++
  pyBoolStr success ++ "\n输出: " ++ output ++ "\n错误: " ++ error ++
  "\n\n请根据这个结果，决定下一步行动。"

/-- `status == "success"` (Python equality against a string). -/
def statusIsSuccess : JVal → Bool
  | .str s => s = "success"
  | _ => false

/-- `options and len(options) > 0`: `some b` when Python evaluates to a
bool, `none` when `len()` raises `TypeError` (unsized truthy value). -/
def sizedPositive : JVal → Option Bool
  | .null => some false
  | .bool b => if b then none else some false
  | .num n ip fp e => if truthy (.num n ip fp e) then none else some false
  | .nan => none
  | .inf _ => none
  | .str s => some (decide (s ≠ ""))
  | .arr l => some (!l.isEmpty)
  | .obj kvs => some (!kvs.isEmpty)

/-- Stand-in for `str(e)` of the `AttributeError` raised when a truthy
non-string command meets `command.strip()` (exact text is interpreter
detail; no claim depends on it). -/
def attrErrorStrip : String := "AttributeError: no attribute strip"

/-- Stand-in for `str(e)` of the `TypeError` raised by `len()` on an
unsized options value. -/
def typeErrorLen : String := "TypeError: object has no len()"

/-- One iteration of the `while` loop of `CommandAgent.run`:
increment the step counter, call the LLM, parse, dispatch. -/
def runIter (cfg : ACfg) (orc : Orc) (st0 : RunSt) : IterOut :=
  let st := { st0 with current_step := st0.current_step + 1 }
  match orc.llm st0.current_step with
  | .exn msg =>
    -- LLM call failed: no assistant message, idle accounting
    let st1 := { st with idle_steps := st.idle_steps + 1 }
    if cfg.max_idle_steps ≤ st1.idle_steps then
      .done { success := false, steps := some st1.steps, summary := none,
              error := some ("LLM call failed: " ++ msg) } st1
    else .next st1
  | .ok none =>
    let st1 := { st with idle_steps := st.idle_steps + 1 }
    if cfg.max_idle_steps ≤ st1.idle_steps then
      .done { success := false, steps := some st1.steps,
              summary := some (.str "LLM 返回 None 响应"), error := none } st1
    else .next st1
  | .ok (some response) =>
    if pyStrip response = "" then
      let st1 := { st with idle_steps := st.idle_steps + 1 }
      if cfg.max_idle_steps ≤ st1.idle_steps then
        .done { success := false, steps := some st1.steps,
                summary := some (.str "LLM 返回空响应"), error := none } st1
      else .next st1
    else
      let st1 :=
        { st with history := st.history ++ [⟨"assistant", response⟩] }
      match _parse_response response with
      | none =>
        if _is_final_summary response then
          .done { success := true, steps := some st1.steps,
                  summary := some (.str response), error := none } st1
        else
          let st2 := { st1 with idle_steps := st1.idle_steps + 1 }
          if cfg.max_idle_steps ≤ st2.idle_steps then
            .done { success := false, steps := some st2.steps,
                    summary := some (.str (pyOrStr response "未生成可执行命令")),
                    error := none } st2
          else .next st2
      | some kvs =>
        let st2 := { st1 with idle_steps := 0 }
        if objHas kvs "interaction" && truthy (objGetD kvs "interaction" .null)
        then
          if !cfg.auto_mode then
            match sizedPositive (objGetD kvs "options" .null) with
            | none =>
              .done { success := false, steps := some st2.steps,
                      summary := none, error := some typeErrorLen } st2
            | some _ =>
              -- option selection and free input both yield the user's text
              let user_response := orc.userInput st2.uiIdx
              let st3 := { st2 with uiIdx := st2.uiIdx + 1 }
              if user_response = "" then
                .done { success := false, steps := some st3.steps,
                        summary := some (.str "用户取消交互"),
                        error := none } st3
              else
                .next { st3 with history :=
                          st3.history ++ [⟨"user", user_response⟩] }
          else .next st2
        else if objHas kvs "status" then
          .done { success := statusIsSuccess (objGetD kvs "status" .null),
                  steps := some st2.steps,
                  summary := some (objGetD kvs "summary" (.str "")),
                  error := none } st2
        else if objHas kvs "command" then
          match objGetD kvs "command" .null with
          | .str command =>
            let v :=
              TerminalTool.validate_command (agentTool cfg).SAFE_MODE
                (agentTool cfg).safe_mode command
            if !v.1 then
              let st3 :=
                { st2 with
                  history := st2.history ++ [⟨"user", "命令不合法: " ++ v.2⟩],
                  idle_steps := st2.idle_steps + 1 }
              if cfg.max_idle_steps ≤ st3.idle_steps then
                .done { success := false, steps := some st3.steps,
                        summary := some (.str "多次命令无效，已结束此次任务"),
                        error := none } st3
              else .next st3
            else
              let st3 := { st2 with idle_steps := 0 }
              let er :=
                TerminalTool.execute (agentTool cfg)
                  (fun n _ _ => orc.shell n) orc.confirm st3.tool command
                  (cfg.require_confirm && !cfg.auto_mode)
              let success := er.1.1
              let stdout := er.1.2.1
              let stderr := er.1.2.2
              let step_info : StepRec :=
                ⟨st3.current_step, command, success, stdout, stderr⟩
              .next { st3 with
                      tool := er.2,
                      steps := st3.steps ++ [step_info],
                      history := st3.history ++
                        [⟨"user", AGENT_OBSERVATION_TEMPLATE command success
                            (if success then stdout else stderr)
                            (if !success then stderr else "")⟩] }
          | v =>
            if truthy v then
              -- `command.strip()` on a truthy non-string raises; the outer
              -- handler turns it into an error result
              .done { success := false, steps := some st2.steps,
                      summary := none, error := some attrErrorStrip } st2
            else
              -- falsy command: `not command` short-circuits validation
              let st3 :=
                { st2 with
                  history :=
                    st2.history ++ [⟨"user", "命令不合法: 命令不能为空"⟩],
                  idle_steps := st2.idle_steps + 1 }
              if cfg.max_idle_steps ≤ st3.idle_steps then
                .done { success := false, steps := some st3.steps,
                        summary := some (.str "多次命令无效，已结束此次任务"),
                        error := none } st3
              else .next st3
        else .next st2

/-- The fueled `while current_step < max_steps` loop; fuel `0` is the
fall-through return after the loop. -/
def runLoop (cfg : ACfg) (orc : Orc) : Nat → RunSt → RunResult × RunSt
  | 0, st =>
    ({ success := false, steps := some st.steps, summary := none,
       error := some "Max steps reached" }, st)
  | fuel + 1, st =>
    match runIter cfg orc st with
    | .done r st' => (r, st')
    | .next st' => runLoop cfg orc fuel st'

/-- Python truthiness of the `task` argument. -/
def taskTruthy : Option String → Bool
  | some t => t ≠ ""
  | none => false

/-- `CommandAgent.run`. -/
def run (cfg : ACfg) (orc : Orc) (st0 : RunSt) (task : Option String)
    (continue_execution : Bool) : RunResult × RunSt :=
  if !continue_execution && taskTruthy task then
    runLoop cfg orc cfg.max_steps
      { st0 with history :=
          st0.history ++ [⟨"user", AGENT_USER_TEMPLATE (task.getD "")⟩] }
  else if continue_execution then runLoop cfg orc cfg.max_steps st0
  else
    ({ success := false, steps := none, summary := none,
       error := some "No task provided" }, st0)

/-- `n` consecutive iterations that all continue (no early
termination): the state after them, or `none` if some iteration
terminated. -/
def nexts (cfg : ACfg) (orc : Orc) : Nat → RunSt → Option RunSt
  | 0, st => some st
  | n + 1, st =>
    match runIter cfg orc st with
    | .next st' => nexts cfg orc n st'
    | .done _ _ => none

end CommandAgent

/-! ## Concrete scenarios

Closed instances used to evaluate the model at specific inputs. -/

/-- An LLM oracle replaying a fixed list of replies. -/
def listLLM (replies : List CommandAgent.LLMOut) : Nat → CommandAgent.LLMOut :=
  fun n => replies.getD n (.exn "no more replies")

/-- A shell child that always succeeds printing `hi`. -/
def okShell : Nat → ShellRes :=
  fun _ => { env := [], out := "hi\n", err := "", code := 0 }

/-- Oracles from a reply script: successful shell, all dialogs
confirmed, interaction input `"ok"`. -/
def orcOf (replies : List CommandAgent.LLMOut) : CommandAgent.Orc :=
  { llm := listLLM replies, shell := okShell,
    confirm := fun _ => true, userInput := fun _ => "ok" }

/-- An agent configuration with the shipped defaults
(`MAX_STEPS = 10`, `MAX_IDLE_STEPS = 2`, safe mode on, AUTO mode). -/
def cfgAuto : CommandAgent.ACfg :=
  CommandAgent.init true 10 2 none true true none "SYS"

/-- A reply whose command is all-whitespace (rejected by validation). -/
def invalidCmdReply : String := "\x7b\"command\": \" \"\x7d"

/-- A terminal reply with `status: success`. -/
def terminalOkReply : String := "\x7b\"status\": \"success\", \"summary\": \"ok\"\x7d"

/-- A reply carrying a well-formed `echo hi` command. -/
def echoCmdReply : String := "\x7b\"command\": \"echo hi\"\x7d"

/-- Script: three rejected commands, then a successful terminal. -/
def orcInvalid3 : CommandAgent.Orc :=
  orcOf [.ok (some invalidCmdReply), .ok (some invalidCmdReply),
         .ok (some invalidCmdReply), .ok (some terminalOkReply)]

/-- Script: commands forever. -/
def orcEcho : CommandAgent.Orc :=
  orcOf [.ok (some echoCmdReply), .ok (some echoCmdReply),
         .ok (some echoCmdReply), .ok (some echoCmdReply)]

/-- A malformed balanced object followed by a well-formed command
object (no fenced block). -/
def c5Reply : String := "\x7b\"a\":\x7d \x7b\"command\": \"ls\"\x7d"

/-- The well-formed later object of `c5Reply` on its own. -/
def c5LaterObject : String := "\x7b\"command\": \"ls\"\x7d"

/-- A command matching a dangerous literal, padded beyond the 10000
character bound. -/
def longDangerousCmd : String :=
  "rm -rf /bin" ++ String.mk (List.replicate 10000 'a')

/-- A harmless command just past the 10000 character bound. -/
def longSafeCmd : String := String.mk (List.replicate 10001 'a')

/-- The tool `CommandAgent.__init__` builds under a safe-mode config:
`TerminalTool()` defaults. -/
def defaultTool : TerminalTool.Cfg := TerminalTool.init true true false

/-- A persistent-shell tool under safe mode. -/
def persistentTool : TerminalTool.Cfg := TerminalTool.init true true true

/-- An empty tool state. -/
def emptyToolSt : TerminalTool.St :=
  { parentEnv := [], shellEnv := [], shellCalls := [], confirms := [] }

/-- Stdout of the second call of the export/echo sequence through a
given tool, starting from parent environment `pe` and state-file
environment `se`. -/
def exportEchoStdout (tool : TerminalTool.Cfg) (pe se : Env)
    (ca : Nat → Bool) : String :=
  (TerminalTool.execute tool miniShell ca
    (TerminalTool.execute tool miniShell ca
      { parentEnv := pe, shellEnv := se, shellCalls := [], confirms := [] }
      "export FOO=bar" false).2
    "echo $FOO" false).1.2.1

/-- Oracles whose LLM always raises. -/
def orcExn : CommandAgent.Orc :=
  { llm := fun _ => .exn "boom", shell := okShell,
    confirm := fun _ => true, userInput := fun _ => "ok" }

/-- Oracles whose LLM returns `None`. -/
def orcNone : CommandAgent.Orc :=
  { llm := fun _ => .ok none, shell := okShell,
    confirm := fun _ => true, userInput := fun _ => "ok" }

/-- Oracles whose LLM returns a whitespace-only reply. -/
def orcEmpty : CommandAgent.Orc := orcOf [.ok (some "  "), .ok (some "  ")]

/-- Oracles whose LLM returns prose containing a completion keyword. -/
def orcDone : CommandAgent.Orc := orcOf [.ok (some "all done")]

/-- Oracles whose LLM returns keyword-free prose. -/
def orcBlah : CommandAgent.Orc := orcOf [.ok (some "no json at all")]

/-- A reply carrying a dangerous command. -/
def dangerousCmdReply : String := "\x7b\"command\": \"rm -rf /\"\x7d"

/-- Oracles whose LLM proposes a dangerous command. -/
def orcDanger : CommandAgent.Orc := orcOf [.ok (some dangerousCmdReply)]

/-- A run state one idle step away from the idle budget of `cfgAuto`. -/
def stIdle1 : CommandAgent.RunSt :=
  { CommandAgent.initSt cfgAuto [] with idle_steps := 1 }

/-- A declining confirmation oracle. -/
def noAns : Nat → Bool := fun _ => false

/-! ## Helper lemmas -/

namespace TerminalTool

theorem runShell_calls (tool : Cfg) (backend : ShellFn) (st : St)
    (cmd : String) :
    (runShell tool backend st cmd).2.shellCalls = st.shellCalls ++ [cmd] := by
  unfold runShell
  split <;> rfl

theorem normalStage_calls (tool : Cfg) (backend : ShellFn) (ca : Nat → Bool)
    (cmd : String) (rc s h : Bool) (st : St) :
    (normalStage tool backend ca cmd rc s h st).2.shellCalls = st.shellCalls
    ∨ (normalStage tool backend ca cmd rc s h st).2.shellCalls =
        st.shellCalls ++ [cmd] := by
  unfold normalStage
  split
  · split
    · exact Or.inl rfl
    · exact Or.inr (runShell_calls ..)
  · exact Or.inr (runShell_calls ..)

theorem highRiskStage_calls (tool : Cfg) (backend : ShellFn) (ca : Nat → Bool)
    (cmd : String) (rc s h : Bool) (st : St) :
    (highRiskStage tool backend ca cmd rc s h st).2.shellCalls = st.shellCalls
    ∨ (highRiskStage tool backend ca cmd rc s h st).2.shellCalls =
        st.shellCalls ++ [cmd] := by
  unfold highRiskStage
  split
  · split
    · exact Or.inl rfl
    · exact normalStage_calls ..
  · exact normalStage_calls ..

theorem sudoStage_calls (tool : Cfg) (backend : ShellFn) (ca : Nat → Bool)
    (cmd : String) (rc s h : Bool) (st : St) :
    (sudoStage tool backend ca cmd rc s h st).2.shellCalls = st.shellCalls
    ∨ (sudoStage tool backend ca cmd rc s h st).2.shellCalls =
        st.shellCalls ++ [cmd] := by
  unfold sudoStage
  split
  · split
    · exact Or.inl rfl
    · exact highRiskStage_calls ..
  · exact highRiskStage_calls ..

theorem execute_calls_cases (tool : Cfg) (backend : ShellFn) (ca : Nat → Bool)
    (st : St) (cmd : String) (rc : Bool) :
    (execute tool backend ca st cmd rc).2.shellCalls = st.shellCalls ∨
    ((execute tool backend ca st cmd rc).2.shellCalls = st.shellCalls ++ [cmd]
      ∧ (tool.safe_mode && Config.is_dangerous_command tool.SAFE_MODE cmd)
          = false) := by
  unfold execute
  split
  · exact Or.inl rfl
  · rename_i h1
    split
    · exact Or.inl rfl
    · rcases sudoStage_calls tool backend ca cmd rc _ _ st with h | h
      · exact Or.inl h
      · exact Or.inr ⟨h, by simpa using h1⟩

theorem execute_mem (tool : Cfg) (backend : ShellFn) (ca : Nat → Bool)
    (st : St) (cmd : String) (rc : Bool) (c : String)
    (h : c ∈ (execute tool backend ca st cmd rc).2.shellCalls) :
    c ∈ st.shellCalls ∨
      (c = cmd ∧
        (tool.safe_mode && Config.is_dangerous_command tool.SAFE_MODE cmd)
          = false) := by
  rcases execute_calls_cases tool backend ca st cmd rc with h1 | ⟨h1, h2⟩
  · rw [h1] at h; exact Or.inl h
  · rw [h1] at h
    rcases List.mem_append.mp h with h' | h'
    · exact Or.inl h'
    · exact Or.inr ⟨List.mem_singleton.mp h', h2⟩

theorem runShell_confirms (tool : Cfg) (backend : ShellFn) (st : St)
    (cmd : String) :
    (runShell tool backend st cmd).2.confirms = st.confirms := by
  unfold runShell
  split <;> rfl

theorem normalStage_confirms_ext (tool : Cfg) (backend : ShellFn)
    (ca : Nat → Bool) (cmd : String) (rc s h : Bool) (st : St) :
    ∃ more, (normalStage tool backend ca cmd rc s h st).2.confirms =
      st.confirms ++ more := by
  unfold normalStage
  split
  · split
    · exact ⟨_, rfl⟩
    · exact ⟨_, by rw [runShell_confirms]; rfl⟩
  · exact ⟨[], by rw [runShell_confirms, List.append_nil]⟩

theorem highRiskStage_confirms_ext (tool : Cfg) (backend : ShellFn)
    (ca : Nat → Bool) (cmd : String) (rc s h : Bool) (st : St) :
    ∃ more, (highRiskStage tool backend ca cmd rc s h st).2.confirms =
      st.confirms ++ more := by
  unfold highRiskStage
  split
  · split
    · exact ⟨_, rfl⟩
    · rcases normalStage_confirms_ext tool backend ca cmd rc s h
        (confirmStage ca st "确认执行此高风险命令？" false).2 with ⟨more, hm⟩
      refine ⟨⟨"确认执行此高风险命令？", false⟩ :: more, ?_⟩
      rw [hm]
      simp [confirmStage]
  · exact normalStage_confirms_ext ..

theorem execute_dangerous_blocked (tool : Cfg) (backend : ShellFn)
    (ca : Nat → Bool) (st : St) (cmd : String) (rc : Bool)
    (hs : tool.safe_mode = true)
    (hd : Config.is_dangerous_command tool.SAFE_MODE cmd = true) :
    execute tool backend ca st cmd rc =
      ((false, "", "Dangerous command blocked"), st) := by
  unfold execute
  rw [hs, hd]
  simp

theorem validate_dangerous_false (SAFE : Bool) (cmd : String)
    (hd : Config.is_dangerous_command SAFE cmd = true) :
    (validate_command SAFE true cmd).1 = false := by
  unfold validate_command
  split
  · rfl
  · rw [if_pos (by simp [hd])]

end TerminalTool

namespace CommandAgent

theorem runIter_step (cfg : ACfg) (orc : Orc) (st : RunSt) :
    (runIter cfg orc st).state.current_step = st.current_step + 1 := by
  unfold runIter
  dsimp only
  repeat' split
  all_goals rfl

theorem runIter_calls_sound (cfg : ACfg) (orc : Orc) (st : RunSt)
    (c : String)
    (h : c ∈ (runIter cfg orc st).state.tool.shellCalls) :
    c ∈ st.tool.shellCalls ∨
      Config.is_dangerous_command cfg.SAFE_MODE c = false := by
  unfold runIter at h
  dsimp only at h
  repeat' split at h
  all_goals try exact Or.inl h
  all_goals (
    rcases TerminalTool.execute_mem _ _ _ _ _ _ _ h with h' | ⟨hc, hgate⟩
    · exact Or.inl h'
    · right
      rw [hc]
      simpa [agentTool, TerminalTool.init] using hgate)

theorem runLoop_calls_sound (cfg : ACfg) (orc : Orc) :
    ∀ (fuel : Nat) (st : RunSt) (c : String),
      c ∈ (runLoop cfg orc fuel st).2.tool.shellCalls →
      c ∈ st.tool.shellCalls ∨
        Config.is_dangerous_command cfg.SAFE_MODE c = false
  | 0, st, c, h => Or.inl h
  | fuel + 1, st, c, h => by
    unfold runLoop at h
    cases heq : runIter cfg orc st with
    | done r st' =>
      rw [heq] at h
      have hst : st' = (runIter cfg orc st).state := by rw [heq]; rfl
      rw [hst] at h
      exact runIter_calls_sound cfg orc st c h
    | next st' =>
      rw [heq] at h
      rcases runLoop_calls_sound cfg orc fuel st' c h with h' | h'
      · have hst : st' = (runIter cfg orc st).state := by rw [heq]; rfl
        rw [hst] at h'
        exact runIter_calls_sound cfg orc st c h'
      · exact Or.inr h'

theorem runLoop_step_le (cfg : ACfg) (orc : Orc) :
    ∀ (fuel : Nat) (st : RunSt),
      (runLoop cfg orc fuel st).2.current_step ≤ st.current_step + fuel
  | 0, st => Nat.le_add_right ..
  | fuel + 1, st => by
    unfold runLoop
    cases heq : runIter cfg orc st with
    | done r st' =>
      have hst : st' = (runIter cfg orc st).state := by rw [heq]; rfl
      have := runIter_step cfg orc st
      dsimp only
      rw [hst]
      omega
    | next st' =>
      have hst : st' = (runIter cfg orc st).state := by rw [heq]; rfl
      have h1 := runIter_step cfg orc st
      have h2 := runLoop_step_le cfg orc fuel st'
      rw [← hst] at h1
      dsimp only
      omega

theorem runLoop_nexts (cfg : ACfg) (orc : Orc) :
    ∀ (fuel : Nat) (st fin : RunSt),
      nexts cfg orc fuel st = some fin →
      runLoop cfg orc fuel st =
        ({ success := false, steps := some fin.steps, summary := none,
           error := some "Max steps reached" }, fin)
  | 0, st, fin, h => by
    simp only [nexts, Option.some.injEq] at h
    rw [← h]
    rfl
  | fuel + 1, st, fin, h => by
    unfold nexts at h
    unfold runLoop
    cases heq : runIter cfg orc st with
    | done r st' =>
      rw [heq] at h
      exact absurd h (by simp)
    | next st' =>
      rw [heq] at h
      exact runLoop_nexts cfg orc fuel st' fin h

theorem runIter_command_rejected (cfg : ACfg) (orc : Orc) (st : RunSt)
    (r : String) (kvs : List (String × JVal)) (cmd : String)
    (hllm : orc.llm st.current_step = .ok (some r))
    (hne : pyStrip r ≠ "")
    (hp : _parse_response r = some kvs)
    (hint : (objHas kvs "interaction" &&
      truthy (objGetD kvs "interaction" .null)) = false)
    (hstat : objHas kvs "status" = false)
    (hcmdk : objHas kvs "command" = true)
    (hcmd : objGetD kvs "command" .null = .str cmd)
    (hvalid : (TerminalTool.validate_command cfg.SAFE_MODE true cmd).1
      = false) :
    (runIter cfg orc st).state.steps = st.steps ∧
    (runIter cfg orc st).state.tool = st.tool ∧
    (runIter cfg orc st).state.history =
      st.history ++ [⟨"assistant", r⟩,
        ⟨"user", "命令不合法: " ++
          (TerminalTool.validate_command cfg.SAFE_MODE true cmd).2⟩] := by
  unfold runIter
  rw [hllm]
  dsimp only
  rw [if_neg hne]
  simp only [hp, hint, hstat, hcmdk, hcmd, Bool.false_eq_true,
    Bool.true_eq_false, if_false, if_true]
  have hv : TerminalTool.validate_command (agentTool cfg).SAFE_MODE
      (agentTool cfg).safe_mode cmd =
      TerminalTool.validate_command cfg.SAFE_MODE true cmd := by
    simp [agentTool, TerminalTool.init]
  rw [hv, hvalid]
  simp only [Bool.not_false, if_true]
  split <;> exact ⟨rfl, rfl, by simp [IterOut.state]⟩

theorem runIter_command_invalid_next (cfg : ACfg) (orc : Orc) (st : RunSt)
    (r : String) (kvs : List (String × JVal)) (cmd : String)
    (hllm : orc.llm st.current_step = .ok (some r))
    (hne : pyStrip r ≠ "")
    (hp : _parse_response r = some kvs)
    (hint : (objHas kvs "interaction" &&
      truthy (objGetD kvs "interaction" .null)) = false)
    (hstat : objHas kvs "status" = false)
    (hcmdk : objHas kvs "command" = true)
    (hcmd : objGetD kvs "command" .null = .str cmd)
    (hvalid : (TerminalTool.validate_command cfg.SAFE_MODE true cmd).1
      = false)
    (hidle : 2 ≤ cfg.max_idle_steps) :
    (runIter cfg orc st).result? = none ∧
    (runIter cfg orc st).state.idle_steps = 1 ∧
    (runIter cfg orc st).state.steps = st.steps ∧
    (runIter cfg orc st).state.tool = st.tool := by
  unfold runIter
  rw [hllm]
  dsimp only
  rw [if_neg hne]
  simp only [hp, hint, hstat, hcmdk, hcmd, Bool.false_eq_true,
    Bool.true_eq_false, if_false, if_true]
  have hv : TerminalTool.validate_command (agentTool cfg).SAFE_MODE
      (agentTool cfg).safe_mode cmd =
      TerminalTool.validate_command cfg.SAFE_MODE true cmd := by
    simp [agentTool, TerminalTool.init]
  rw [hv, hvalid]
  simp only [Bool.not_false, if_true]
  rw [if_neg (by omega : ¬ cfg.max_idle_steps ≤ 0 + 1)]
  exact ⟨rfl, rfl, rfl, rfl⟩

theorem runIter_command_valid (cfg : ACfg) (orc : Orc) (st : RunSt)
    (r : String) (kvs : List (String × JVal)) (cmd : String)
    (hllm : orc.llm st.current_step = .ok (some r))
    (hne : pyStrip r ≠ "")
    (hp : _parse_response r = some kvs)
    (hint : (objHas kvs "interaction" &&
      truthy (objGetD kvs "interaction" .null)) = false)
    (hstat : objHas kvs "status" = false)
    (hcmdk : objHas kvs "command" = true)
    (hcmd : objGetD kvs "command" .null = .str cmd)
    (hvalid : (TerminalTool.validate_command cfg.SAFE_MODE true cmd).1
      = true) :
    (runIter cfg orc st).result? = none ∧
    ∃ step, (runIter cfg orc st).state.steps = st.steps ++ [step] := by
  unfold runIter
  rw [hllm]
  dsimp only
  rw [if_neg hne]
  simp only [hp, hint, hstat, hcmdk, hcmd, Bool.false_eq_true,
    Bool.true_eq_false, if_false, if_true]
  have hv : TerminalTool.validate_command (agentTool cfg).SAFE_MODE
      (agentTool cfg).safe_mode cmd =
      TerminalTool.validate_command cfg.SAFE_MODE true cmd := by
    simp [agentTool, TerminalTool.init]
  rw [hv, hvalid]
  simp only [Bool.not_true, Bool.false_eq_true, if_false]
  exact ⟨rfl, ⟨_, rfl⟩⟩

theorem run_calls_sound (cfg : ACfg) (orc : Orc) (pe : Env)
    (task : Option String) (ce : Bool) (c : String)
    (h : c ∈ ((run cfg orc (initSt cfg pe) task ce).2).tool.shellCalls) :
    Config.is_dangerous_command cfg.SAFE_MODE c = false := by
  unfold run at h
  split at h
  · rcases runLoop_calls_sound cfg orc cfg.max_steps _ c h with h' | h'
    · exact absurd h' (List.not_mem_nil c)
    · exact h'
  · split at h
    · rcases runLoop_calls_sound cfg orc cfg.max_steps _ c h with h' | h'
      · exact absurd h' (List.not_mem_nil c)
      · exact h'
    · exact absurd h (List.not_mem_nil c)

theorem runLoop_step_le0 (cfg : ACfg) (orc : Orc) (fuel : Nat) (st : RunSt)
    (h0 : st.current_step = 0) :
    (runLoop cfg orc fuel st).2.current_step ≤ fuel := by
  have h := runLoop_step_le cfg orc fuel st
  omega

theorem run_step_le (cfg : ACfg) (orc : Orc) (pe : Env)
    (task : Option String) (ce : Bool) :
    ((run cfg orc (initSt cfg pe) task ce).2).current_step ≤
      cfg.max_steps := by
  unfold run
  split
  · exact runLoop_step_le0 cfg orc cfg.max_steps _ rfl
  · split
    · exact runLoop_step_le0 cfg orc cfg.max_steps _ rfl
    · exact Nat.zero_le _

end CommandAgent

/-! ### Long-command facts

`longDangerousCmd` and `longSafeCmd` exceed the 10000 character bound;
the facts below (strip, lower, length, dangerousness) are established
through list lemmas rather than evaluation. -/

theorem dropWhile_replicate_not {p : Char → Bool} {a : Char}
    (h : p a = false) (n : Nat) :
    List.dropWhile p (List.replicate n a) = List.replicate n a := by
  cases n with
  | zero => rfl
  | succ k =>
    rw [List.replicate_succ, List.dropWhile_cons, h]
    simp

theorem pyStripL_anchor (c : Char) (m : List Char) (n : Nat) (a : Char)
    (hc : pyWsChar c = false) (ha : pyWsChar a = false) (hn : n ≠ 0) :
    pyStripL (c :: (m ++ List.replicate n a)) =
      c :: (m ++ List.replicate n a) := by
  unfold pyStripL
  rw [List.dropWhile_cons, hc]
  simp only [Bool.false_eq_true, if_false]
  rw [List.reverse_cons, List.reverse_append, List.reverse_replicate,
    List.append_assoc, List.dropWhile_append, dropWhile_replicate_not ha]
  have hne : (List.replicate n a).isEmpty = false := by
    cases n with
    | zero => exact absurd rfl hn
    | succ k => rfl
  rw [hne]
  simp only [Bool.false_eq_true, if_false]
  simp [List.reverse_append]

theorem longDangerousCmd_data :
    longDangerousCmd.data = "rm -rf /bin".data ++ List.replicate 10000 'a' :=
  rfl

theorem longDangerousCmd_length : longDangerousCmd.length = 10011 := by
  have h : longDangerousCmd.length =
      ("rm -rf /bin".data ++ List.replicate 10000 'a').length := rfl
  rw [h, List.length_append, List.length_replicate]
  decide

theorem cmdHeadSplit : "rm -rf /bin".data = 'r' :: "m -rf /bin".data := by
  decide

theorem longDangerousCmd_strip :
    (pyStrip longDangerousCmd).data =
      "rm -rf /bin".data ++ List.replicate 10000 'a' := by
  have h0 : (pyStrip longDangerousCmd).data =
      pyStripL longDangerousCmd.data := by simp only [pyStrip]
  rw [h0, longDangerousCmd_data, cmdHeadSplit, List.cons_append,
    pyStripL_anchor 'r' _ 10000 'a' (by decide) (by decide) (by decide)]

theorem longDangerousCmd_strip_lower :
    (pyStrip (pyLower longDangerousCmd)).data =
      "rm -rf /bin".data ++ List.replicate 10000 'a' := by
  have h0 : (pyStrip (pyLower longDangerousCmd)).data =
      pyStripL (List.map Char.toLower longDangerousCmd.data) := by
    simp only [pyStrip, pyLower]
  rw [h0, longDangerousCmd_data, List.map_append, List.map_replicate]
  have hm : List.map Char.toLower "rm -rf /bin".data = "rm -rf /bin".data := by
    decide
  have ha : Char.toLower 'a' = 'a' := by decide
  rw [hm, ha, cmdHeadSplit, List.cons_append,
    pyStripL_anchor 'r' _ 10000 'a' (by decide) (by decide) (by decide)]

theorem listHas_of_starts (needle hay : List Char)
    (h : listStarts needle hay = true) : listHas needle hay = true := by
  cases hay with
  | nil => exact h
  | cons c cs => unfold listHas; rw [h]; rfl

theorem longDangerousCmd_dangerous :
    Config.is_dangerous_command true longDangerousCmd = true := by
  unfold Config.is_dangerous_command
  dsimp only
  have h1 : (Config.DANGEROUS_COMMANDS.any fun d =>
      strHas (pyStrip (pyLower longDangerousCmd)) (pyLower d)) = true := by
    have hd : Config.DANGEROUS_COMMANDS = "rm -rf /" ::
        Config.DANGEROUS_COMMANDS.tail := rfl
    rw [hd, List.any_cons]
    have hfirst : strHas (pyStrip (pyLower longDangerousCmd))
        (pyLower "rm -rf /") = true := by
      unfold strHas
      rw [longDangerousCmd_strip_lower]
      exact listHas_of_starts _ _ (by rfl)
    rw [hfirst]
    rfl
  rw [h1]
  rfl

theorem longDangerousCmd_strip_ne : ¬ (pyStrip longDangerousCmd = "") := by
  intro h
  have hl := congrArg List.length (congrArg String.data h)
  rw [longDangerousCmd_strip, List.length_append, List.length_replicate] at hl
  exact absurd hl (by decide)

theorem longDangerousCmd_ne : ¬ (longDangerousCmd = "") := by
  intro h
  have := congrArg String.length h
  rw [longDangerousCmd_length] at this
  simp at this


theorem pyStripL_replicate {a : Char} (ha : pyWsChar a = false) (n : Nat) :
    pyStripL (List.replicate n a) = List.replicate n a := by
  unfold pyStripL
  rw [dropWhile_replicate_not ha, List.reverse_replicate,
    dropWhile_replicate_not ha, List.reverse_replicate]

theorem longSafeCmd_length : longSafeCmd.length = 10001 := by
  have h : longSafeCmd.length = (List.replicate 10001 'a').length := rfl
  rw [h, List.length_replicate]

theorem longSafeCmd_strip_ne : ¬ (pyStrip longSafeCmd = "") := by
  intro h
  have h0 : (pyStrip longSafeCmd).data =
      pyStripL (List.replicate 10001 'a') := by
    simp only [pyStrip, longSafeCmd]
  rw [pyStripL_replicate (by decide)] at h0
  have hl := congrArg List.length (congrArg String.data h)
  rw [h0, List.length_replicate] at hl
  exact absurd hl (by decide)

theorem longSafeCmd_ne : ¬ (longSafeCmd = "") := by
  intro h
  have hl := congrArg String.length h
  rw [longSafeCmd_length] at hl
  exact absurd hl (by decide)

theorem validate_command_cases :
    ∀ (SAFE safe : Bool) (cmd : String),
      ((cmd = "" ∨ pyStrip cmd = "") →
        TerminalTool.validate_command SAFE safe cmd =
          (false, "命令不能为空")) ∧
      (¬(cmd = "" ∨ pyStrip cmd = "") →
        (safe && Config.is_dangerous_command SAFE cmd) = true →
        TerminalTool.validate_command SAFE safe cmd =
          (false, "危险命令已被阻止: " ++ cmd)) ∧
      (¬(cmd = "" ∨ pyStrip cmd = "") →
        (safe && Config.is_dangerous_command SAFE cmd) = false →
        10000 < cmd.length →
        TerminalTool.validate_command SAFE safe cmd =
          (false, "命令过长，可能存在安全风险")) := by
  intro SAFE safe cmd
  unfold TerminalTool.validate_command
  refine ⟨?_, ?_, ?_⟩
  · intro h
    rcases h with h | h <;> simp [h]
  · intro h hd
    rw [if_neg (by simpa using h), if_pos (by simpa using hd)]
  · intro h hd hlen
    rw [if_neg (by simpa using h), if_neg (by simp [hd]), if_pos hlen]

end MiniShellAgent

/-! ## Claims -/

namespace MiniShellAgent

/-- C1: a command the Safety Oracle classifies as dangerous under safe
mode is never passed to the shell: `TerminalTool.execute` returns
`(false, "", "Dangerous command blocked")` without reaching the
persistent-shell or fallback execution path (the state, and with it the
shell-call log, is untouched); every command the agent loop ever hands
to a shell child is non-dangerous; and an iteration whose parsed
command is dangerous is rejected at validation, producing no Step
Record and leaving the tool state unchanged. -/
theorem C1_dangerous_never_executed :
    (∀ (tool : TerminalTool.Cfg) (backend : ShellFn) (ca : Nat → Bool)
       (st : TerminalTool.St) (cmd : String) (rc : Bool),
       tool.safe_mode = true →
       Config.is_dangerous_command tool.SAFE_MODE cmd = true →
       TerminalTool.execute tool backend ca st cmd rc =
         ((false, "", "Dangerous command blocked"), st)) ∧
    (∀ (cfg : CommandAgent.ACfg) (orc : CommandAgent.Orc) (pe : Env)
       (task : Option String) (ce : Bool) (c : String),
       c ∈ ((CommandAgent.run cfg orc (CommandAgent.initSt cfg pe) task
              ce).2).tool.shellCalls →
       Config.is_dangerous_command cfg.SAFE_MODE c = false) ∧
    (∀ (cfg : CommandAgent.ACfg) (orc : CommandAgent.Orc)
       (st : CommandAgent.RunSt) (r : String)
       (kvs : List (String × JVal)) (cmd : String),
       orc.llm st.current_step = .ok (some r) →
       pyStrip r ≠ "" →
       CommandAgent._parse_response r = some kvs →
       (objHas kvs "interaction" &&
         truthy (objGetD kvs "interaction" .null)) = false →
       objHas kvs "status" = false →
       objHas kvs "command" = true →
       objGetD kvs "command" .null = .str cmd →
       Config.is_dangerous_command cfg.SAFE_MODE cmd = true →
       (CommandAgent.runIter cfg orc st).state.steps = st.steps ∧
       (CommandAgent.runIter cfg orc st).state.tool = st.tool) := by
  refine ⟨TerminalTool.execute_dangerous_blocked, CommandAgent.run_calls_sound,
    ?_⟩
  intro cfg orc st r kvs cmd hllm hne hp hint hstat hcmdk hcmd hd
  have hrej := CommandAgent.runIter_command_rejected cfg orc st r kvs cmd
    hllm hne hp hint hstat hcmdk hcmd
    (TerminalTool.validate_dangerous_false cfg.SAFE_MODE cmd hd)
  exact ⟨hrej.1, hrej.2.1⟩

/-- C1 witness: `rm -rf /` is blocked by `execute` with the state
untouched; in a concrete run the executed command `echo hi` is
non-dangerous; and a concrete dangerous-command iteration leaves the
step list and tool state unchanged. -/
theorem C1_witness :
    TerminalTool.execute defaultTool miniShell noAns emptyToolSt
        "rm -rf /" false =
      ((false, "", "Dangerous command blocked"), emptyToolSt) ∧
    Config.is_dangerous_command cfgAuto.SAFE_MODE "echo hi" = false ∧
    (CommandAgent.runIter cfgAuto orcDanger
        (CommandAgent.initSt cfgAuto [])).state.steps =
      (CommandAgent.initSt cfgAuto []).steps := by
  have h := C1_dangerous_never_executed
  refine ⟨h.1 defaultTool miniShell noAns emptyToolSt "rm -rf /" false
    rfl rfl, ?_, ?_⟩
  · exact h.2.1 cfgAuto orcEcho [] (some "demo") false "echo hi"
      (by decide)
  · exact (h.2.2 cfgAuto orcDanger (CommandAgent.initSt cfgAuto [])
      dangerousCmdReply [("command", .str "rm -rf /")] "rm -rf /"
      rfl (by decide) rfl rfl rfl rfl rfl rfl).1

/-- C2 counterexample: with `max_idle_steps = 2`, three consecutive
iterations whose parsed command is rejected as invalid do **not**
terminate the run — a fourth reply is still consumed and the run ends
with `success = true` — because `idle_steps` is reset to `0` on every
successfully parsed reply before validation. -/
theorem C2_counterexample :
    (CommandAgent.run cfgAuto orcInvalid3
        (CommandAgent.initSt cfgAuto []) (some "demo") false).1 =
      { success := true, steps := some [], summary := some (.str "ok"),
        error := none } ∧
    cfgAuto.max_idle_steps = 2 ∧
    (CommandAgent.run cfgAuto orcInvalid3
        (CommandAgent.initSt cfgAuto []) (some "demo") false).2.current_step
      = 4 ∧
    CommandAgent._parse_response invalidCmdReply =
      some [("command", .str " ")] ∧
    (TerminalTool.validate_command true true " ").1 = false :=
  ⟨rfl, rfl, rfl, rfl, rfl⟩

/-- C2 (amended): LLM-failure and unparseable iterations accumulate the
idle counter and `max_idle_steps` of them terminate the run with
`success = false`; but a reply that parses successfully resets
`idle_steps` to `0` before validation, so an iteration with a rejected
command merely sets the counter to `1` and (whenever
`max_idle_steps ≥ 2`) consecutive rejected-command iterations never
trigger idle termination — the loop continues. -/
theorem C2_amended_idle_reset :
    (∀ (cfg : CommandAgent.ACfg) (orc : CommandAgent.Orc)
       (st : CommandAgent.RunSt) (r : String)
       (kvs : List (String × JVal)) (cmd : String),
       orc.llm st.current_step = .ok (some r) →
       pyStrip r ≠ "" →
       CommandAgent._parse_response r = some kvs →
       (objHas kvs "interaction" &&
         truthy (objGetD kvs "interaction" .null)) = false →
       objHas kvs "status" = false →
       objHas kvs "command" = true →
       objGetD kvs "command" .null = .str cmd →
       (TerminalTool.validate_command cfg.SAFE_MODE true cmd).1 = false →
       2 ≤ cfg.max_idle_steps →
       (CommandAgent.runIter cfg orc st).result? = none ∧
       (CommandAgent.runIter cfg orc st).state.idle_steps = 1) ∧
    (∀ (cfg : CommandAgent.ACfg) (orc : CommandAgent.Orc)
       (st : CommandAgent.RunSt) (msg : String),
       orc.llm st.current_step = .exn msg →
       cfg.max_idle_steps ≤ st.idle_steps + 1 →
       (CommandAgent.runIter cfg orc st).result? =
         some { success := false, steps := some st.steps, summary := none,
                error := some ("LLM call failed: " ++ msg) }) := by
  constructor
  · intro cfg orc st r kvs cmd hllm hne hp hint hstat hcmdk hcmd hvalid hidle
    have h := CommandAgent.runIter_command_invalid_next cfg orc st r kvs cmd
      hllm hne hp hint hstat hcmdk hcmd hvalid hidle
    exact ⟨h.1, h.2.1⟩
  · intro cfg orc st msg hllm hcap
    unfold CommandAgent.runIter
    rw [hllm]
    dsimp only
    rw [if_pos hcap]
    rfl

/-- C2 amended witness: a concrete rejected-command iteration continues
with the idle counter at `1`; a concrete LLM failure at the idle budget
terminates with the failure result. -/
theorem C2_amended_witness :
    ((CommandAgent.runIter cfgAuto orcInvalid3
        (CommandAgent.initSt cfgAuto [])).result? = none ∧
     (CommandAgent.runIter cfgAuto orcInvalid3
        (CommandAgent.initSt cfgAuto [])).state.idle_steps = 1) ∧
    (CommandAgent.runIter cfgAuto orcExn stIdle1).result? =
      some { success := false, steps := some stIdle1.steps, summary := none,
             error := some ("LLM call failed: " ++ "boom") } := by
  have h := C2_amended_idle_reset
  refine ⟨h.1 cfgAuto orcInvalid3 (CommandAgent.initSt cfgAuto [])
    invalidCmdReply [("command", .str " ")] " "
    rfl (by decide) rfl rfl rfl rfl rfl rfl (by decide), ?_⟩
  exact h.2 cfgAuto orcExn stIdle1 "boom" rfl (by decide)

/-- C3: the loop counter can rise by at most the fuel, so a run started
at step `0` ends with `current_step ≤ max_steps`; and whenever the
available iterations all continue (no earlier termination), the loop
returns `success = false` with the accumulated steps and the error
string `Max steps reached`. -/
theorem C3_max_steps_bound :
    (∀ (cfg : CommandAgent.ACfg) (orc : CommandAgent.Orc) (fuel : Nat)
       (st : CommandAgent.RunSt),
       (CommandAgent.runLoop cfg orc fuel st).2.current_step ≤
         st.current_step + fuel) ∧
    (∀ (cfg : CommandAgent.ACfg) (orc : CommandAgent.Orc) (pe : Env)
       (task : Option String) (ce : Bool),
       ((CommandAgent.run cfg orc (CommandAgent.initSt cfg pe) task
          ce).2).current_step ≤ cfg.max_steps) ∧
    (∀ (cfg : CommandAgent.ACfg) (orc : CommandAgent.Orc) (fuel : Nat)
       (st : CommandAgent.RunSt),
       (CommandAgent.nexts cfg orc fuel st).elim True fun fin =>
         CommandAgent.runLoop cfg orc fuel st =
           ({ success := false, steps := some fin.steps, summary := none,
              error := some "Max steps reached" }, fin)) := by
  refine ⟨CommandAgent.runLoop_step_le, CommandAgent.run_step_le, ?_⟩
  intro cfg orc fuel st
  cases hn : CommandAgent.nexts cfg orc fuel st with
  | none => trivial
  | some fin => exact CommandAgent.runLoop_nexts cfg orc fuel st fin hn

end MiniShellAgent

namespace MiniShellAgent

/-- C4 counterexample: the tool the agent executes commands through is
`TerminalTool()` — `use_persistent_shell = False` — and on that tool
`export FOO=bar` followed by `echo $FOO` yields a second stdout that is
the empty string, which does not end with `bar`: exported variables do
not persist across the agent tool's execute calls. -/
theorem C4_counterexample :
    CommandAgent.agentTool cfgAuto = defaultTool ∧
    defaultTool.use_persistent_shell = false ∧
    exportEchoStdout defaultTool [] [] (fun _ => true) = "" ∧
    strEnds (exportEchoStdout defaultTool [] [] (fun _ => true)) "bar"
      = false :=
  ⟨rfl, rfl, rfl, rfl⟩

/-- C4 (amended): session continuity holds for a tool constructed with
`use_persistent_shell = True` — after `export FOO=bar`, the stdout of
`echo $FOO` (stripped of its trailing newline) is `bar`, whatever the
initial parent and state-file environments — while the agent's actual
tool (`use_persistent_shell = False`, one fresh child per call) leaves
the parent environment untouched, so when `FOO` is unset in the parent
environment the second call's stdout is empty. -/
theorem C4_amended_persistence :
    (∀ (pe se : Env) (ca : Nat → Bool),
       pyStrip (exportEchoStdout persistentTool pe se ca) = "bar" ∧
       strEnds (pyStrip (exportEchoStdout persistentTool pe se ca)) "bar"
         = true) ∧
    (∀ (pe : Env) (ca : Nat → Bool),
       lookupEnv pe "FOO" = none →
       exportEchoStdout defaultTool pe [] ca = "") := by
  constructor
  · intro pe se ca
    exact ⟨rfl, rfl⟩
  · intro pe ca h
    have e1 : exportEchoStdout defaultTool pe [] ca =
        pyStrip (String.intercalate " " [expandWord pe "$FOO"] ++ "\n") := rfl
    have e2 : expandWord pe "$FOO" = (lookupEnv pe "FOO").getD "" := rfl
    rw [e1, e2, h]
    rfl

/-- C4 amended witness: both parts at the empty environment. -/
theorem C4_amended_witness :
    pyStrip (exportEchoStdout persistentTool [] [] (fun _ => true))
      = "bar" ∧
    exportEchoStdout defaultTool [] [] (fun _ => false) = "" := by
  have h := C4_amended_persistence
  exact ⟨(h.1 [] [] (fun _ => true)).1,
    h.2 [] (fun _ => false) rfl⟩

/-- C5 counterexample: a reply holding a malformed balanced object
followed by a well-formed Command object parses to nothing — the scan
does not retry from the next brace — even though the later object alone
decodes to an object carrying a `command` key. -/
theorem C5_counterexample :
    CommandAgent._parse_response c5Reply = none ∧
    jsonLoads c5LaterObject = some (.obj [("command", .str "ls")]) ∧
    objHas [("command", JVal.str "ls")] "command" = true :=
  ⟨rfl, rfl, rfl⟩

/-- C5 (amended): with no usable fenced block (none present, or its
payload unparseable), the bare-object path parses only the first
balanced candidate found by the depth/string/escape scan; if that
parse fails the parser gives up and returns no intent — it does not
rescan from the next `\x7b`. -/
theorem C5_amended_no_rescan :
    ∀ (r : String) (cand : List Char),
      (CommandAgent.fenceSearch r.data = none ∨
        ∃ p, CommandAgent.fenceSearch r.data = some p ∧
          jsonLoads (String.mk p) = none) →
      CommandAgent.firstCandidate r.data = some cand →
      jsonLoads (String.mk cand) = none →
      CommandAgent._parse_response r = none := by
  intro r cand hf hc hj
  unfold CommandAgent._parse_response
  rcases hf with hf | ⟨p, hf, hp⟩
  · rw [hf]
    dsimp only
    unfold CommandAgent.scanPart
    rw [hc]
    dsimp only
    rw [hj]
  · rw [hf]
    dsimp only
    rw [hp]
    dsimp only
    unfold CommandAgent.scanPart
    rw [hc]
    dsimp only
    rw [hj]

/-- C5 amended witness: the no-rescan theorem applied to the concrete
two-object reply. -/
theorem C5_amended_witness :
    CommandAgent.fenceSearch c5Reply.data = none ∧
    CommandAgent.firstCandidate c5Reply.data = some "\x7b\"a\":\x7d".data ∧
    jsonLoads "\x7b\"a\":\x7d" = none ∧
    CommandAgent._parse_response c5Reply = none := by
  refine ⟨rfl, rfl, rfl, ?_⟩
  exact C5_amended_no_rescan c5Reply "\x7b\"a\":\x7d".data (Or.inl rfl) rfl rfl

/-- C6 counterexample: a command longer than 10000 characters that also
matches a dangerous literal is classified dangerous, not too-long: the
dangerous check runs before the length bound. -/
theorem C6_counterexample :
    TerminalTool.validate_command true true longDangerousCmd =
      (false, "危险命令已被阻止: " ++ longDangerousCmd) ∧
    10000 < longDangerousCmd.length ∧
    ("危险命令已被阻止: " ++ longDangerousCmd ≠ "命令过长，可能存在安全风险") := by
  refine ⟨?_, ?_, ?_⟩
  · exact (validate_command_cases true true longDangerousCmd).2.1
      (fun h => h.elim longDangerousCmd_ne longDangerousCmd_strip_ne)
      (by rw [Bool.true_and, longDangerousCmd_dangerous])
  · rw [longDangerousCmd_length]; decide
  · decide

/-- C6 (amended): `validate_command` checks in order with first match
winning — empty/whitespace first, then (under safe mode) the dangerous
classification, and only then the 10000-character bound — so an
over-long command matching a dangerous literal or pattern is reported
as dangerous, while an over-long command matching none is reported as
too long. -/
theorem C6_amended_check_order :
    ∀ (SAFE safe : Bool) (cmd : String),
      ((cmd = "" ∨ pyStrip cmd = "") →
        TerminalTool.validate_command SAFE safe cmd =
          (false, "命令不能为空")) ∧
      (¬(cmd = "" ∨ pyStrip cmd = "") →
        (safe && Config.is_dangerous_command SAFE cmd) = true →
        TerminalTool.validate_command SAFE safe cmd =
          (false, "危险命令已被阻止: " ++ cmd)) ∧
      (¬(cmd = "" ∨ pyStrip cmd = "") →
        (safe && Config.is_dangerous_command SAFE cmd) = false →
        10000 < cmd.length →
        TerminalTool.validate_command SAFE safe cmd =
          (false, "命令过长，可能存在安全风险")) :=
  fun SAFE safe cmd => validate_command_cases SAFE safe cmd

/-- C6 amended witness: the three branches at concrete commands — the
empty command, a dangerous command, and an over-long harmless one. -/
theorem C6_amended_witness :
    TerminalTool.validate_command true true "  " = (false, "命令不能为空") ∧
    TerminalTool.validate_command true true "rm -rf /" =
      (false, "危险命令已被阻止: " ++ "rm -rf /") ∧
    TerminalTool.validate_command false false longSafeCmd =
      (false, "命令过长，可能存在安全风险") := by
  have h1 := C6_amended_check_order true true "  "
  have h2 := C6_amended_check_order true true "rm -rf /"
  have h3 := C6_amended_check_order false false longSafeCmd
  exact ⟨h1.1 (Or.inr (by decide)), h2.2.1 (by decide) (by decide),
    h3.2.2 (fun h => h.elim longSafeCmd_ne longSafeCmd_strip_ne) rfl
      (by rw [longSafeCmd_length]; decide)⟩


/-- C7: an unparseable reply containing one of the case-insensitive
completion keywords terminates the run as an implicit Terminal with
`success = true` and the raw reply as summary; an unparseable reply
with no keyword counts as idle (the counter rises, terminating only at
the idle budget, with `success = false`); a parsed Terminal reply's
result is governed by its own `status`/`summary` fields; and a parsed
reply without a `status` key can never terminate the iteration with
`success = true` — the keyword upgrade applies only to unparseable
replies. -/
theorem C7_keyword_upgrade :
    (∀ (cfg : CommandAgent.ACfg) (orc : CommandAgent.Orc)
       (st : CommandAgent.RunSt) (r : String),
       orc.llm st.current_step = .ok (some r) →
       pyStrip r ≠ "" →
       CommandAgent._parse_response r = none →
       CommandAgent._is_final_summary r = true →
       (CommandAgent.runIter cfg orc st).result? =
         some { success := true, steps := some st.steps,
                summary := some (.str r), error := none }) ∧
    (∀ (cfg : CommandAgent.ACfg) (orc : CommandAgent.Orc)
       (st : CommandAgent.RunSt) (r : String),
       orc.llm st.current_step = .ok (some r) →
       pyStrip r ≠ "" →
       CommandAgent._parse_response r = none →
       CommandAgent._is_final_summary r = false →
       (CommandAgent.runIter cfg orc st).state.idle_steps =
         st.idle_steps + 1 ∧
       (cfg.max_idle_steps ≤ st.idle_steps + 1 →
         (CommandAgent.runIter cfg orc st).result? =
           some { success := false, steps := some st.steps,
                  summary := some (.str (pyOrStr r "未生成可执行命令")),
                  error := none }) ∧
       (¬ cfg.max_idle_steps ≤ st.idle_steps + 1 →
         (CommandAgent.runIter cfg orc st).result? = none)) ∧
    (∀ (cfg : CommandAgent.ACfg) (orc : CommandAgent.Orc)
       (st : CommandAgent.RunSt) (r : String)
       (kvs : List (String × JVal)),
       orc.llm st.current_step = .ok (some r) →
       pyStrip r ≠ "" →
       CommandAgent._parse_response r = some kvs →
       (objHas kvs "interaction" &&
         truthy (objGetD kvs "interaction" .null)) = false →
       objHas kvs "status" = true →
       (CommandAgent.runIter cfg orc st).result? =
         some { success := CommandAgent.statusIsSuccess
                  (objGetD kvs "status" .null),
                steps := some st.steps,
                summary := some (objGetD kvs "summary" (.str "")),
                error := none }) ∧
    (∀ (cfg : CommandAgent.ACfg) (orc : CommandAgent.Orc)
       (st : CommandAgent.RunSt) (r : String)
       (kvs : List (String × JVal)) (res : CommandAgent.RunResult),
       orc.llm st.current_step = .ok (some r) →
       pyStrip r ≠ "" →
       CommandAgent._parse_response r = some kvs →
       objHas kvs "status" = false →
       (CommandAgent.runIter cfg orc st).result? = some res →
       res.success = false) := by
  refine ⟨?_, ?_, ?_, ?_⟩
  · intro cfg orc st r hllm hne hp hfin
    unfold CommandAgent.runIter
    rw [hllm]
    dsimp only
    rw [if_neg hne]
    simp only [hp, hfin, if_true]
    rfl
  · intro cfg orc st r hllm hne hp hfin
    unfold CommandAgent.runIter
    rw [hllm]
    dsimp only
    rw [if_neg hne]
    simp only [hp, hfin, Bool.false_eq_true, if_false]
    refine ⟨?_, ?_, ?_⟩
    · split <;> rfl
    · intro hcap
      rw [if_pos hcap]
      rfl
    · intro hcap
      rw [if_neg hcap]
      rfl
  · intro cfg orc st r kvs hllm hne hp hint hstat
    unfold CommandAgent.runIter
    rw [hllm]
    dsimp only
    rw [if_neg hne]
    simp only [hp, hint, hstat, Bool.false_eq_true, Bool.true_eq_false,
      if_false, if_true]
    rfl
  · intro cfg orc st r kvs res hllm hne hp hstat h
    unfold CommandAgent.runIter at h
    rw [hllm] at h
    dsimp only at h
    rw [if_neg hne] at h
    simp only [hp, hstat, Bool.false_eq_true, if_false] at h
    repeat' split at h
    all_goals first
      | exact Option.noConfusion h
      | rw [← Option.some.inj h]

/-- C7 witness: `all done` (keyword) terminates successfully with the
raw reply as summary; `no json at all` (no keyword) counts as one idle
step and continues; a parsed Terminal reply takes its summary from the
dict, not the raw reply. -/
theorem C7_witness :
    (CommandAgent.runIter cfgAuto orcDone
        (CommandAgent.initSt cfgAuto [])).result? =
      some { success := true, steps := some [],
             summary := some (.str "all done"), error := none } ∧
    ((CommandAgent.runIter cfgAuto orcBlah
        (CommandAgent.initSt cfgAuto [])).state.idle_steps = 1 ∧
     (CommandAgent.runIter cfgAuto orcBlah
        (CommandAgent.initSt cfgAuto [])).result? = none) ∧
    (CommandAgent.runIter cfgAuto (orcOf [.ok (some terminalOkReply)])
        (CommandAgent.initSt cfgAuto [])).result? =
      some { success := true, steps := some [],
             summary := some (.str "ok"), error := none } := by
  have h := C7_keyword_upgrade
  refine ⟨?_, ⟨?_, ?_⟩, ?_⟩
  · exact h.1 cfgAuto orcDone (CommandAgent.initSt cfgAuto []) "all done"
      rfl (by decide) rfl rfl
  · exact (h.2.1 cfgAuto orcBlah (CommandAgent.initSt cfgAuto [])
      "no json at all" rfl (by decide) rfl rfl).1
  · exact (h.2.1 cfgAuto orcBlah (CommandAgent.initSt cfgAuto [])
      "no json at all" rfl (by decide) rfl rfl).2.2 (by decide)
  · exact h.2.2.1 cfgAuto (orcOf [.ok (some terminalOkReply)])
      (CommandAgent.initSt cfgAuto []) terminalOkReply
      [("status", .str "success"), ("summary", .str "ok")]
      rfl (by decide) rfl rfl rfl


/-- C8: a command whose stripped, lowered text starts with `sudo ` is
always confirmed before execution — the dialog (default answer no) is
shown regardless of the `require_confirm` argument, and a declined
answer returns `User cancelled sudo command` with the shell untouched;
a declined high-risk confirmation (default no, under safe mode) and a
declined normal confirmation (default yes, when `require_confirm` is
set) likewise abort with their `User cancelled …` stderr and an
unchanged shell; and at the loop level a validated command — whatever
its execution outcome, including a declined confirmation — produces one
Step Record and the run continues. -/
theorem C8_sudo_confirm_and_cancel :
    (∀ (tool : TerminalTool.Cfg) (backend : ShellFn) (ca : Nat → Bool)
       (st : TerminalTool.St) (cmd : String) (rc : Bool),
       (tool.safe_mode && Config.is_dangerous_command tool.SAFE_MODE cmd)
         = false →
       (TerminalTool.validate_command tool.SAFE_MODE tool.safe_mode cmd).1
         = true →
       strStarts (pyStrip (pyLower cmd)) "sudo " = true →
       (⟨"确认执行此sudo命令？", false⟩ : ConfirmReq) ∈
         (TerminalTool.execute tool backend ca st cmd rc).2.confirms ∧
       (ca st.confirms.length = false →
         TerminalTool.execute tool backend ca st cmd rc =
           ((false, "", "User cancelled sudo command"),
            { st with confirms :=
                st.confirms ++ [⟨"确认执行此sudo命令？", false⟩] }))) ∧
    (∀ (tool : TerminalTool.Cfg) (backend : ShellFn) (ca : Nat → Bool)
       (st : TerminalTool.St) (cmd : String) (rc : Bool),
       (tool.safe_mode && Config.is_dangerous_command tool.SAFE_MODE cmd)
         = false →
       (TerminalTool.validate_command tool.SAFE_MODE tool.safe_mode cmd).1
         = true →
       strStarts (pyStrip (pyLower cmd)) "sudo " = false →
       (TerminalTool.high_risk_keywords.any fun kw =>
         strHas (pyStrip (pyLower cmd)) kw) = true →
       tool.safe_mode = true →
       ca st.confirms.length = false →
       TerminalTool.execute tool backend ca st cmd rc =
         ((false, "", "User cancelled high-risk command"),
          { st with confirms :=
              st.confirms ++ [⟨"确认执行此高风险命令？", false⟩] })) ∧
    (∀ (tool : TerminalTool.Cfg) (backend : ShellFn) (ca : Nat → Bool)
       (st : TerminalTool.St) (cmd : String),
       (tool.safe_mode && Config.is_dangerous_command tool.SAFE_MODE cmd)
         = false →
       (TerminalTool.validate_command tool.SAFE_MODE tool.safe_mode cmd).1
         = true →
       strStarts (pyStrip (pyLower cmd)) "sudo " = false →
       (TerminalTool.high_risk_keywords.any fun kw =>
         strHas (pyStrip (pyLower cmd)) kw) = false →
       ca st.confirms.length = false →
       TerminalTool.execute tool backend ca st cmd true =
         ((false, "", "User cancelled"),
          { st with confirms :=
              st.confirms ++ [⟨"是否执行此命令？", true⟩] })) ∧
    (∀ (cfg : CommandAgent.ACfg) (orc : CommandAgent.Orc)
       (st : CommandAgent.RunSt) (r : String)
       (kvs : List (String × JVal)) (cmd : String),
       orc.llm st.current_step = .ok (some r) →
       pyStrip r ≠ "" →
       CommandAgent._parse_response r = some kvs →
       (objHas kvs "interaction" &&
         truthy (objGetD kvs "interaction" .null)) = false →
       objHas kvs "status" = false →
       objHas kvs "command" = true →
       objGetD kvs "command" .null = .str cmd →
       (TerminalTool.validate_command cfg.SAFE_MODE true cmd).1 = true →
       (CommandAgent.runIter cfg orc st).result? = none ∧
       ∃ step, (CommandAgent.runIter cfg orc st).state.steps =
         st.steps ++ [step]) := by
  refine ⟨?_, ?_, ?_, CommandAgent.runIter_command_valid⟩
  · intro tool backend ca st cmd rc hgate hvalid hsudo
    unfold TerminalTool.execute
    simp only [hgate, hvalid, Bool.not_true, Bool.false_eq_true, if_false]
    unfold TerminalTool.sudoStage
    simp only [hsudo, if_true]
    constructor
    · cases hans : ca st.confirms.length with
      | false =>
        simp only [TerminalTool.confirmStage, hans, Bool.not_false, if_true]
        simp
      | true =>
        simp only [TerminalTool.confirmStage, hans, Bool.not_true,
          Bool.false_eq_true, if_false]
        rcases TerminalTool.highRiskStage_confirms_ext tool backend ca cmd rc
          true (TerminalTool.high_risk_keywords.any fun kw =>
            strHas (pyStrip (pyLower cmd)) kw)
          { st with confirms :=
              st.confirms ++ [⟨"确认执行此sudo命令？", false⟩] }
          with ⟨more, hm⟩
        rw [hm]
        simp
    · intro hans
      simp only [TerminalTool.confirmStage, hans, Bool.not_false, if_true]
  · intro tool backend ca st cmd rc hgate hvalid hsudo hhigh hsafe hans
    unfold TerminalTool.execute
    simp only [hgate, hvalid, Bool.not_true, Bool.false_eq_true, if_false]
    unfold TerminalTool.sudoStage
    simp only [hsudo, Bool.false_eq_true, if_false]
    unfold TerminalTool.highRiskStage
    simp only [hhigh, hsafe, Bool.true_and, if_true]
    simp only [TerminalTool.confirmStage, hans, Bool.not_false, if_true]
  · intro tool backend ca st cmd hgate hvalid hsudo hhigh hans
    unfold TerminalTool.execute
    simp only [hgate, hvalid, Bool.not_true, Bool.false_eq_true, if_false]
    unfold TerminalTool.sudoStage
    simp only [hsudo, Bool.false_eq_true, if_false]
    unfold TerminalTool.highRiskStage
    simp only [hhigh, Bool.false_and, Bool.false_eq_true, if_false]
    unfold TerminalTool.normalStage
    simp only [hsudo, hhigh, Bool.not_false, Bool.true_and, Bool.and_true,
      if_true]
    simp only [TerminalTool.confirmStage, hans, Bool.not_false, if_true]

/-- C8 witness: `sudo ls`, `rm -rf tmp` and `echo hi` against a
declining dialog oracle produce the three `User cancelled …` results
with only the dialog logged; a run iteration executing `echo hi` under
`require_confirm` continues with one step recorded. -/
theorem C8_witness :
    ((⟨"确认执行此sudo命令？", false⟩ : ConfirmReq) ∈
      (TerminalTool.execute defaultTool miniShell noAns emptyToolSt
        "sudo ls" false).2.confirms ∧
     TerminalTool.execute defaultTool miniShell noAns emptyToolSt
        "sudo ls" false =
      ((false, "", "User cancelled sudo command"),
       { emptyToolSt with
         confirms := [⟨"确认执行此sudo命令？", false⟩] })) ∧
    TerminalTool.execute defaultTool miniShell noAns emptyToolSt
        "rm -rf tmp" false =
      ((false, "", "User cancelled high-risk command"),
       { emptyToolSt with
         confirms := [⟨"确认执行此高风险命令？", false⟩] }) ∧
    TerminalTool.execute defaultTool miniShell noAns emptyToolSt
        "echo hi" true =
      ((false, "", "User cancelled"),
       { emptyToolSt with confirms := [⟨"是否执行此命令？", true⟩] }) ∧
    ((CommandAgent.runIter (CommandAgent.init true 10 2 none true false
          none "SYS")
        { llm := listLLM [.ok (some echoCmdReply)], shell := okShell,
          confirm := noAns, userInput := fun _ => "ok" }
        (CommandAgent.initSt (CommandAgent.init true 10 2 none true false
          none "SYS") [])).result? = none ∧
     ∃ step,
       (CommandAgent.runIter (CommandAgent.init true 10 2 none true false
            none "SYS")
          { llm := listLLM [.ok (some echoCmdReply)], shell := okShell,
            confirm := noAns, userInput := fun _ => "ok" }
          (CommandAgent.initSt (CommandAgent.init true 10 2 none true false
            none "SYS") [])).state.steps = [] ++ [step]) := by
  have h := C8_sudo_confirm_and_cancel
  refine ⟨?_, ?_, ?_, ?_⟩
  · have hs := h.1 defaultTool miniShell noAns emptyToolSt "sudo ls" false
      (by decide) (by decide) (by decide)
    exact ⟨hs.1, hs.2 rfl⟩
  · exact h.2.1 defaultTool miniShell noAns emptyToolSt "rm -rf tmp" false
      (by decide) (by decide) (by decide) (by decide) rfl rfl
  · exact h.2.2.1 defaultTool miniShell noAns emptyToolSt "echo hi"
      (by decide) (by decide) (by decide) (by decide) rfl
  · exact h.2.2.2 (CommandAgent.init true 10 2 none true false none "SYS")
      { llm := listLLM [.ok (some echoCmdReply)], shell := okShell,
        confirm := noAns, userInput := fun _ => "ok" }
      (CommandAgent.initSt (CommandAgent.init true 10 2 none true false
        none "SYS") [])
      echoCmdReply [("command", .str "echo hi")] "echo hi"
      rfl (by decide) rfl rfl rfl rfl rfl (by decide)


/-- C9: an iteration whose LLM call raises, returns `None`, or returns
a whitespace-only reply appends no message — the conversation history
is exactly as before the call — and increments `idle_steps` by one;
whenever a non-empty reply is obtained, the assistant message carrying
it is appended right after the prior history. -/
theorem C9_llm_failure_frame :
    (∀ (cfg : CommandAgent.ACfg) (orc : CommandAgent.Orc)
       (st : CommandAgent.RunSt) (msg : String),
       orc.llm st.current_step = .exn msg →
       (CommandAgent.runIter cfg orc st).state.history = st.history ∧
       (CommandAgent.runIter cfg orc st).state.idle_steps =
         st.idle_steps + 1) ∧
    (∀ (cfg : CommandAgent.ACfg) (orc : CommandAgent.Orc)
       (st : CommandAgent.RunSt),
       orc.llm st.current_step = .ok none →
       (CommandAgent.runIter cfg orc st).state.history = st.history ∧
       (CommandAgent.runIter cfg orc st).state.idle_steps =
         st.idle_steps + 1) ∧
    (∀ (cfg : CommandAgent.ACfg) (orc : CommandAgent.Orc)
       (st : CommandAgent.RunSt) (r : String),
       orc.llm st.current_step = .ok (some r) →
       pyStrip r = "" →
       (CommandAgent.runIter cfg orc st).state.history = st.history ∧
       (CommandAgent.runIter cfg orc st).state.idle_steps =
         st.idle_steps + 1) ∧
    (∀ (cfg : CommandAgent.ACfg) (orc : CommandAgent.Orc)
       (st : CommandAgent.RunSt) (r : String),
       orc.llm st.current_step = .ok (some r) →
       pyStrip r ≠ "" →
       ∃ rest, (CommandAgent.runIter cfg orc st).state.history =
         st.history ++ [⟨"assistant", r⟩] ++ rest) := by
  refine ⟨?_, ?_, ?_, ?_⟩
  · intro cfg orc st msg hllm
    unfold CommandAgent.runIter
    rw [hllm]
    dsimp only
    split <;> exact ⟨rfl, rfl⟩
  · intro cfg orc st hllm
    unfold CommandAgent.runIter
    rw [hllm]
    dsimp only
    split <;> exact ⟨rfl, rfl⟩
  · intro cfg orc st r hllm hws
    unfold CommandAgent.runIter
    rw [hllm]
    dsimp only
    rw [if_pos hws]
    split <;> exact ⟨rfl, rfl⟩
  · intro cfg orc st r hllm hne
    unfold CommandAgent.runIter
    rw [hllm]
    dsimp only
    rw [if_neg hne]
    repeat' split
    all_goals dsimp only [CommandAgent.IterOut.state]
    all_goals first
      | exact ⟨[], (List.append_nil _).symm⟩
      | exact ⟨_, rfl⟩

/-- C9 witness: a raising, a `None`-returning and a whitespace-only
oracle each leave the seeded history untouched with the idle counter at
`1`; a command reply is appended as an assistant message. -/
theorem C9_witness :
    ((CommandAgent.runIter cfgAuto orcExn
        (CommandAgent.initSt cfgAuto [])).state.history =
      (CommandAgent.initSt cfgAuto []).history ∧
     (CommandAgent.runIter cfgAuto orcExn
        (CommandAgent.initSt cfgAuto [])).state.idle_steps = 1) ∧
    ((CommandAgent.runIter cfgAuto orcNone
        (CommandAgent.initSt cfgAuto [])).state.history =
      (CommandAgent.initSt cfgAuto []).history ∧
     (CommandAgent.runIter cfgAuto orcNone
        (CommandAgent.initSt cfgAuto [])).state.idle_steps = 1) ∧
    ((CommandAgent.runIter cfgAuto orcEmpty
        (CommandAgent.initSt cfgAuto [])).state.history =
      (CommandAgent.initSt cfgAuto []).history ∧
     (CommandAgent.runIter cfgAuto orcEmpty
        (CommandAgent.initSt cfgAuto [])).state.idle_steps = 1) ∧
    (∃ rest, (CommandAgent.runIter cfgAuto orcEcho
        (CommandAgent.initSt cfgAuto [])).state.history =
      (CommandAgent.initSt cfgAuto []).history ++
        [⟨"assistant", echoCmdReply⟩] ++ rest) := by
  have h := C9_llm_failure_frame
  exact ⟨h.1 cfgAuto orcExn (CommandAgent.initSt cfgAuto []) "boom" rfl,
    h.2.1 cfgAuto orcNone (CommandAgent.initSt cfgAuto []) rfl,
    h.2.2.1 cfgAuto orcEmpty (CommandAgent.initSt cfgAuto []) "  "
      rfl (by decide),
    h.2.2.2 cfgAuto orcEcho (CommandAgent.initSt cfgAuto []) echoCmdReply
      rfl (by decide)⟩


/-- C10: under a true `Config.SAFE_MODE`, `TerminalTool.__init__`
computes `safe_mode or Config.SAFE_MODE`, so `safe_mode=False` still
yields a tool with safe mode on; such a tool keeps blocking dangerous
commands, keeps demanding high-risk confirmation (a declined dialog
aborts the command), and keeps the injection check; only a false global
flag yields a tool with safe mode off. -/
theorem C10_safe_mode_sticky :
    (∀ (b p : Bool), (TerminalTool.init true b p).safe_mode = true) ∧
    (∀ (b p : Bool) (backend : ShellFn) (ca : Nat → Bool)
       (st : TerminalTool.St) (cmd : String) (rc : Bool),
       Config.is_dangerous_command true cmd = true →
       TerminalTool.execute (TerminalTool.init true b p) backend ca st cmd
         rc = ((false, "", "Dangerous command blocked"), st)) ∧
    (∀ (b p : Bool) (backend : ShellFn) (ca : Nat → Bool)
       (st : TerminalTool.St) (cmd : String) (rc : Bool),
       Config.is_dangerous_command true cmd = false →
       (TerminalTool.validate_command true true cmd).1 = true →
       strStarts (pyStrip (pyLower cmd)) "sudo " = false →
       (TerminalTool.high_risk_keywords.any fun kw =>
         strHas (pyStrip (pyLower cmd)) kw) = true →
       ca st.confirms.length = false →
       TerminalTool.execute (TerminalTool.init true b p) backend ca st cmd
         rc = ((false, "", "User cancelled high-risk command"),
          { st with confirms :=
              st.confirms ++ [⟨"确认执行此高风险命令？", false⟩] })) ∧
    (∀ (b : Bool) (cmd : String),
       ¬(cmd = "" ∨ pyStrip cmd = "") →
       Config.is_dangerous_command true cmd = false →
       ¬(10000 < cmd.length) →
       TerminalTool.injectionHit cmd = true →
       TerminalTool.validate_command (TerminalTool.init true b false).SAFE_MODE
         (TerminalTool.init true b false).safe_mode cmd =
         (false, "检测到可能的命令注入: " ++ cmd)) ∧
    (∀ (p : Bool), (TerminalTool.init false false p).safe_mode = false) := by
  have hsm : ∀ (b p : Bool), (TerminalTool.init true b p).safe_mode = true :=
    fun b p => by cases b <;> rfl
  refine ⟨hsm, ?_, ?_, ?_, fun p => rfl⟩
  · intro b p backend ca st cmd rc hd
    exact TerminalTool.execute_dangerous_blocked (TerminalTool.init true b p)
      backend ca st cmd rc (hsm b p) hd
  · intro b p backend ca st cmd rc hd hvalid hsudo hhigh hans
    unfold TerminalTool.execute
    simp only [TerminalTool.init, Bool.or_true, Bool.true_and, hd,
      Bool.false_eq_true, if_false, hvalid, Bool.not_true]
    unfold TerminalTool.sudoStage
    simp only [hsudo, Bool.false_eq_true, if_false]
    unfold TerminalTool.highRiskStage
    simp only [hhigh, Bool.or_true, Bool.true_and, Bool.and_self, if_true]
    simp only [TerminalTool.confirmStage, hans, Bool.not_false, if_true]
  · intro b cmd hne hd hlen hinj
    have hs : (TerminalTool.init true b false).safe_mode = true := hsm b false
    have hS : (TerminalTool.init true b false).SAFE_MODE = true := rfl
    rw [hs, hS]
    unfold TerminalTool.validate_command
    rw [if_neg (by simpa using hne)]
    simp only [Bool.true_and, hd, Bool.false_eq_true, if_false]
    rw [if_neg hlen]
    simp only [Bool.true_and, hinj, if_true]

/-- C10 witness: with the global flag on and `safe_mode=False`, the
tool field is `true`, `rm -rf /` is blocked, `rm -rf tmp` still demands
(and here is denied) high-risk confirmation, and `ls; rm file` is
rejected as injection; with the global flag off the field is `false`. -/
theorem C10_witness :
    (TerminalTool.init true false false).safe_mode = true ∧
    TerminalTool.execute (TerminalTool.init true false false) miniShell
        noAns emptyToolSt "rm -rf /" false =
      ((false, "", "Dangerous command blocked"), emptyToolSt) ∧
    TerminalTool.execute (TerminalTool.init true false false) miniShell
        noAns emptyToolSt "rm -rf tmp" false =
      ((false, "", "User cancelled high-risk command"),
       { emptyToolSt with
         confirms := [⟨"确认执行此高风险命令？", false⟩] }) ∧
    TerminalTool.validate_command (TerminalTool.init true false false).SAFE_MODE
        (TerminalTool.init true false false).safe_mode "ls; rm file" =
      (false, "检测到可能的命令注入: " ++ "ls; rm file") ∧
    (TerminalTool.init false false false).safe_mode = false := by
  have h := C10_safe_mode_sticky
  exact ⟨h.1 false false,
    h.2.1 false false miniShell noAns emptyToolSt "rm -rf /" false
      (by decide),
    h.2.2.1 false false miniShell noAns emptyToolSt "rm -rf tmp" false
      (by decide) (by decide) (by decide) (by decide) rfl,
    h.2.2.2.1 false "ls; rm file" (by decide) (by decide) (by decide)
      (by decide),
    h.2.2.2.2 false⟩

end MiniShellAgent
